import Mathlib

/- Verification development for the fault-report module, a shallow embedding
   of src/reports/__init__.py over rational numbers.  Timestamps are modelled
   in hours since an epoch falling on a midnight, so one day is 24 units and
   the hour-of-day component of a timestamp t is the floor of t modulo 24.
   A pandas cell value that may be NaN is modelled as Option Rat, with none
   standing for NaN. -/

/-- pandas Series.sum with the default skipna=True: NaN entries are skipped,
and the sum of an empty or all-NaN series is 0. -/
def nansum : List (Option ℚ) → ℚ
  | [] => 0
  | none :: rest => nansum rest
  | some x :: rest => x + nansum rest

/-- pandas Series.mean with the default skipna=True: the arithmetic mean of
the non-NaN entries, NaN (none) when no entry is defined. -/
def nanMean (xs : List (Option ℚ)) : Option ℚ :=
  let ys := xs.filterMap id
  if ys.length = 0 then none
  else some (ys.sum / (ys.length : ℚ))

/-- Helper for Series.diff: each sample minus its predecessor, the sample
just before the list being prev. -/
def diffAux (prev : ℚ) : List ℚ → List (Option ℚ)
  | [] => []
  | t :: rest => some (t - prev) :: diffAux t rest

/-- pandas Series.diff on the timestamp index: the first entry is NaT (none)
because the first sample has no predecessor, and entry i is index i minus
index i-1. -/
def seriesDiff : List ℚ → List (Option ℚ)
  | [] => []
  | t :: rest => none :: diffAux t rest

/-- Elementwise product of two aligned series with NaN propagation, as in the
expression delta * df[output_col]. -/
def nanMul (ds fs : List (Option ℚ)) : List (Option ℚ) :=
  List.zipWith (fun d f =>
    match d, f with
    | some a, some b => some (a * b)
    | _, _ => none) ds fs

/-- The expression (delta * df[output_col]).sum() of summarize_fault_times in
both report classes, where delta = df.index.to_series().diff(): the flagged
elapsed time in hours. -/
def hoursFlagged (ts : List ℚ) (fs : List (Option ℚ)) : ℚ :=
  nansum (nanMul (seriesDiff ts) fs)

/-- pandas Series.where(flag == 1): keep the entries whose aligned flag cell
equals 1 and replace every other entry by NaN.  A NaN flag cell compares
unequal to 1, as in pandas. -/
def whereEqOne (xs fs : List (Option ℚ)) : List (Option ℚ) :=
  List.zipWith (fun x f => if f = some 1 then x else none) xs fs

/-- Round to the nearest integer with ties going to the even neighbour, the
behaviour of the Python builtin round on exactly represented halves. -/
def halfEvenRound (q : ℚ) : ℤ :=
  let f := ⌊q⌋
  let r := q - (f : ℚ)
  if r < 1 / 2 then f
  else if 1 / 2 < r then f + 1
  else if f % 2 = 0 then f else f + 1

/-- Python round(x, 2) over the rational model: round to the nearest multiple
of one hundredth. -/
def round2 (q : ℚ) : ℚ := (halfEvenRound (q * 100) : ℚ) / 100

/-- pandas Series.std() squared: the sample variance with ddof=1 over the
non-NaN entries, NaN (none) when fewer than two entries are defined.  The
source only ever compares std() == 0; std is the square root of this
quantity, a square root vanishes exactly at zero, and NaN == 0 is False in
Python just as none differs from some 0 here, so the comparison is modelled
on the variance. -/
def sampleVar (xs : List (Option ℚ)) : Option ℚ :=
  let ys := xs.filterMap id
  if ys.length < 2 then none
  else
    let m := ys.sum / (ys.length : ℚ)
    some ((ys.map (fun x => (x - m) ^ 2)).sum / ((ys.length : ℚ) - 1))

/-- The hour-of-day component df.index.hour of a timestamp measured in hours:
floor of the timestamp modulo 24, always in [0, 24). -/
def hourOfDay (t : ℚ) : ℤ := ⌊t⌋ % 24

/-- The dtype of a pandas column as far as the report code can observe it:
astype(int) changes this tag in place. -/
inductive Dtype where
  | bool
  | int64
  | float64
  deriving DecidableEq, Repr

/-- One named column of the dataset: a dtype tag and the cell values, with
none standing for NaN. -/
structure Column where
  dtype : Dtype
  vals : List (Option ℚ)
  deriving DecidableEq, Repr

/-- astype(int): the dtype becomes int64 and every value is truncated toward
zero, as numpy casts to integer.  The report code only ever casts the 0/1
flag column, where the truncation is the identity on values. -/
def Column.astypeInt (c : Column) : Column :=
  ⟨Dtype.int64, c.vals.map (Option.map (fun q => ((if 0 ≤ q then ⌊q⌋ else ⌈q⌉ : ℤ) : ℚ)))⟩

/-- Column lookup on an association list of named columns: the first binding
with the requested name, none when the name is absent (a pandas KeyError). -/
def colAux (name : String) : List (String × Column) → Option Column
  | [] => none
  | (n, v) :: rest => if n = name then some v else colAux name rest

/-- Column assignment on an association list of named columns: replace the
first binding with the requested name, or append a new binding at the end,
as df[name] = values does in pandas. -/
def setColAux (name : String) (c : Column) : List (String × Column) → List (String × Column)
  | [] => [(name, c)]
  | (n, v) :: rest => if n = name then (n, c) :: rest else (n, v) :: setColAux name c rest

/-- A time-indexed dataset: strictly the parts of a pandas DataFrame the
report code observes, a timestamp index and named columns. -/
structure DataFrame where
  index : List ℚ
  cols : List (String × Column)
  deriving DecidableEq, Repr

/-- df[name] read access. -/
def DataFrame.col (df : DataFrame) (name : String) : Option Column :=
  colAux name df.cols

/-- df[name] = c write access. -/
def DataFrame.setCol (df : DataFrame) (name : String) (c : Column) : DataFrame :=
  ⟨df.index, setColAux name c df.cols⟩

/-- The configuration stored by FaultCodeOneReport.__init__.  The three
threshold fields are stored but never read by the report logic. -/
structure FaultCodeOneReport where
  vfd_speed_percent_err_thres : ℚ
  vfd_speed_percent_max : ℚ
  duct_static_inches_err_thres : ℚ
  duct_static_col : String
  supply_vfd_speed_col : String
  duct_static_setpoint_col : String

/-- The configuration stored by FaultCodeTwoReport.__init__.  The three
threshold fields are stored but never read by the report logic. -/
structure FaultCodeTwoReport where
  mix_degf_err_thres : ℚ
  return_degf_err_thres : ℚ
  outdoor_degf_err_thres : ℚ
  mat_col : String
  rat_col : String
  oat_col : String

/-- The tuple returned by FaultCodeOneReport.summarize_fault_times. -/
structure FC1Summary where
  total_days : ℚ
  total_hours : ℚ
  hours_fc1_mode : ℚ
  percent_true : Option ℚ
  percent_false : Option ℚ
  flag_true_duct_static : Option ℚ
  deriving DecidableEq, Repr

/-- The tuple returned by FaultCodeTwoReport.summarize_fault_times. -/
structure FC2Summary where
  total_days : ℚ
  total_hours : ℚ
  hours_fc2_mode : ℚ
  percent_true : Option ℚ
  percent_false : Option ℚ
  flag_true_mat : Option ℚ
  flag_true_oat : Option ℚ
  flag_true_rat : Option ℚ
  deriving DecidableEq, Repr

/-- FaultCodeOneReport.summarize_fault_times.  The error value carries the
name of the first missing column, standing for the pandas KeyError. -/
def FaultCodeOneReport.summarize_fault_times (cfg : FaultCodeOneReport)
    (df : DataFrame) (output_col : Option String) : Except String FC1Summary :=
  let oc := output_col.getD "fc1_flag"
  let delta := seriesDiff df.index
  match df.col oc with
  | none => .error oc
  | some flag =>
    match df.col cfg.duct_static_col with
    | none => .error cfg.duct_static_col
    | some static =>
      let percent_true := (nanMean flag.vals).map (fun m => round2 (m * 100))
      .ok
        { total_days := round2 (nansum delta / 24)
          total_hours := nansum delta
          hours_fc1_mode := hoursFlagged df.index flag.vals
          percent_true := percent_true
          percent_false := percent_true.map (fun p => round2 (100 - p))
          flag_true_duct_static := (nanMean (whereEqOne static.vals flag.vals)).map round2 }

/-- FaultCodeTwoReport.summarize_fault_times, identical calculus with the
three temperature columns receiving the conditional-mean treatment. -/
def FaultCodeTwoReport.summarize_fault_times (cfg : FaultCodeTwoReport)
    (df : DataFrame) (output_col : Option String) : Except String FC2Summary :=
  let oc := output_col.getD "fc2_flag"
  let delta := seriesDiff df.index
  match df.col oc with
  | none => .error oc
  | some flag =>
    match df.col cfg.mat_col with
    | none => .error cfg.mat_col
    | some mat =>
      match df.col cfg.oat_col with
      | none => .error cfg.oat_col
      | some oat =>
        match df.col cfg.rat_col with
        | none => .error cfg.rat_col
        | some rat =>
          let percent_true := (nanMean flag.vals).map (fun m => round2 (m * 100))
          .ok
            { total_days := round2 (nansum delta / 24)
              total_hours := nansum delta
              hours_fc2_mode := hoursFlagged df.index flag.vals
              percent_true := percent_true
              percent_false := percent_true.map (fun p => round2 (100 - p))
              flag_true_mat := (nanMean (whereEqOne mat.vals flag.vals)).map round2
              flag_true_oat := (nanMean (whereEqOne oat.vals flag.vals)).map round2
              flag_true_rat := (nanMean (whereEqOne rat.vals flag.vals)).map round2 }

/-- FaultCodeOneReport.create_fan_plot: casts the flag column to int in place,
then reads the duct static and fan speed columns to draw the three panels.
The figure is opaque, so the function is modelled by the dataframe it leaves
behind together with the name of the first missing column, if any. -/
def FaultCodeOneReport.create_fan_plot (cfg : FaultCodeOneReport)
    (df : DataFrame) (output_col : Option String) : DataFrame × Option String :=
  let oc := output_col.getD "fc1_flag"
  match df.col oc with
  | none => (df, some oc)
  | some flag =>
    let df1 := df.setCol oc flag.astypeInt
    if (df1.col cfg.duct_static_col).isNone then (df1, some cfg.duct_static_col)
    else if (df1.col cfg.supply_vfd_speed_col).isNone then (df1, some cfg.supply_vfd_speed_col)
    else (df1, none)

/-- FaultCodeTwoReport.create_plot: casts the flag column to int in place,
then reads the mix, return and outside temperature columns in that order. -/
def FaultCodeTwoReport.create_plot (cfg : FaultCodeTwoReport)
    (df : DataFrame) (output_col : Option String) : DataFrame × Option String :=
  let oc := output_col.getD "fc2_flag"
  match df.col oc with
  | none => (df, some oc)
  | some flag =>
    let df1 := df.setCol oc flag.astypeInt
    if (df1.col cfg.mat_col).isNone then (df1, some cfg.mat_col)
    else if (df1.col cfg.rat_col).isNone then (df1, some cfg.rat_col)
    else if (df1.col cfg.oat_col).isNone then (df1, some cfg.oat_col)
    else (df1, none)

/-- The values of the derived hour-of-day column,
df.index.hour.where(df[output_col] == 1). -/
def hourColVals (ts : List ℚ) (fs : List (Option ℚ)) : List (Option ℚ) :=
  List.zipWith (fun t f => if f = some 1 then some ((hourOfDay t : ℚ)) else none) ts fs

/-- Least element of a data list, 0 on an empty list (never consulted then). -/
def listMin : List ℚ → ℚ
  | [] => 0
  | x :: xs => xs.foldl min x

/-- Greatest element of a data list, 0 on an empty list. -/
def listMax : List ℚ → ℚ
  | [] => 0
  | x :: xs => xs.foldl max x

/-- The bin a datum falls into when [lo, hi] is split into 10 equal-width
bins with the last bin closed on the right: the numpy rule that matplotlib
ax.hist applies with its default bins=10. -/
def histIdx (lo hi x : ℚ) : ℕ :=
  if x = hi then 9 else (⌊(x - lo) * 10 / (hi - lo)⌋).toNat

/-- The bucket counts of the 10 bins over [lo, hi] for a data list. -/
def histBins (lo hi : ℚ) (data : List ℚ) : List ℕ :=
  (List.range 10).map (fun k => (data.filter (fun x => histIdx lo hi x = k)).length)

/-- matplotlib ax.hist(data) with every argument left at its default: the
bucket counts of 10 equal-width bins spanning the data range.  A degenerate
range is widened to length one around the single value, as numpy does, and
an empty data list produces 10 empty bins without error. -/
def histCounts10 (data : List ℚ) : List ℕ :=
  if data = [] then List.replicate 10 0
  else
    let lo0 := listMin data
    let hi0 := listMax data
    let lo := if lo0 = hi0 then lo0 - 1 / 2 else lo0
    let hi := if lo0 = hi0 then hi0 + 1 / 2 else hi0
    histBins lo hi data

/-- FaultCodeOneReport.create_hist_plot: derives the transient hour-of-day
column from the flagged rows, stores it on the dataframe, and histograms its
non-NaN entries.  The last parameter mirrors the duct_static_col parameter
the source accepts and never uses. -/
def FaultCodeOneReport.create_hist_plot (df : DataFrame)
    (output_col : Option String) (_duct_static_col : Option String) :
    DataFrame × Except String (List ℕ) :=
  let oc := output_col.getD "fc1_flag"
  match df.col oc with
  | none => (df, .error oc)
  | some flag =>
    let hours := hourColVals df.index flag.vals
    let df2 := df.setCol "hour_of_the_day_fc1" ⟨Dtype.float64, hours⟩
    (df2, .ok (histCounts10 (hours.filterMap id)))

/-- FaultCodeTwoReport.create_hist_plot, identical except for the default
flag column name and the name of the derived column.  The last parameter
mirrors the mat_col parameter the source accepts and never uses. -/
def FaultCodeTwoReport.create_hist_plot (df : DataFrame)
    (output_col : Option String) (_mat_col : Option String) :
    DataFrame × Except String (List ℕ) :=
  let oc := output_col.getD "fc2_flag"
  match df.col oc with
  | none => (df, .error oc)
  | some flag =>
    let hours := hourColVals df.index flag.vals
    let df2 := df.setCol "hour_of_the_day_fc2" ⟨Dtype.float64, hours⟩
    (df2, .ok (histCounts10 (hours.filterMap id)))

/-- The text payload of a bulleted paragraph, by content kind.  Numeric
values are carried as data; they are serialized to text only at the docx
boundary, which the model elides. -/
inductive BulletText where
  | totalDays (v : ℚ)
  | totalHours (v : ℚ)
  | flaggedHours (v : ℚ)
  | percentTrue (v : Option ℚ)
  | percentFalse (v : Option ℚ)
  | avgFlagDuctStatic (v : ℚ)
  | avgFlagTemps (mat : ℚ) (oat rat : Option ℚ)
  | describeCol (name : String)
  | suggestion (msg : String)
  deriving DecidableEq, Repr

/-- One docx section item, in document order.  The footer carries no data
because its text is the wall-clock generation time. -/
inductive DocItem where
  | heading (level : ℕ) (text : String)
  | para (text : String)
  | image (name : String)
  | bullet (t : BulletText)
  | footer
  deriving DecidableEq, Repr

/-- The opening paragraph text of the fault condition one report. -/
def fc1Description : String := "Fault condition one of ASHRAE Guideline 36 is related to flagging poor performance of a AHU variable supply fan attempting to control to a duct pressure setpoint. Fault condition equation as defined by ASHRAE:"

/-- The opening paragraph text of the fault condition two report. -/
def fc2Description : String := "Fault condition two and three of ASHRAE Guideline 36 is related to flagging mixing air temperatures of the AHU that are out of acceptable ranges. Fault condition 2 flags mixing air temperatures that are too low and fault condition 3 flags mixing temperatures that are too high when in comparision to return and outside air data. The mixing air temperatures in theory should always be in between the return and outside air temperatures ranges. Fault condition two equation as defined by ASHRAE:"

/-- Suggestion text emitted by FaultCodeOneReport when percent_true > 5.0. -/
def fc1PoorMsg : String := "The percent True metric that represents the amount of time for when the fault flag is True is high indicating the fan is running at high speeds and appearing to not generate good duct static pressure"

/-- Suggestion text emitted by FaultCodeOneReport when percent_true > 5.0 fails. -/
def fc1GoodMsg : String := "The percent True metric that represents the amount of time for when the fault flag is True is low inidicating the fan appears to generate good duct static pressure"

/-- Suggestion text emitted by FaultCodeOneReport when the setpoint std is 0. -/
def fc1NoResetMsg : String := "No duct pressure setpoint reset detected (BAD)"

/-- Suggestion text emitted by FaultCodeOneReport when the setpoint std comparison with 0 fails. -/
def fc1ResetMsg : String := "Duct pressure reset detected (Good)"

/-- Suggestion text emitted by FaultCodeTwoReport when percent_true < 5. -/
def fc2OutMsg : String := "The percent True of time in fault condition 2 or 3 is high indicating the AHU temperature sensors are out of calibration"

/-- Suggestion text emitted by FaultCodeTwoReport when percent_true < 5 fails. -/
def fc2WithinMsg : String := "The percent True of time is low inidicating the AHU temperature sensors are within calibration"

/-- The comparison percent_true > 5.0 of FaultCodeOneReport.create_report:
a NaN percentage compares False, as every comparison with NaN does. -/
def optGt5 (p : Option ℚ) : Bool :=
  match p with
  | some x => decide (5 < x)
  | none => false

/-- The comparison percent_true < 5 of FaultCodeTwoReport.create_report:
a NaN percentage compares False. -/
def optLt5 (p : Option ℚ) : Bool :=
  match p with
  | some x => decide (x < 5)
  | none => false

/-- The fan-performance branch of the suggestions section of
FaultCodeOneReport.create_report. -/
def fc1PerfSuggestion (p : Option ℚ) : String :=
  if optGt5 p then fc1PoorMsg else fc1GoodMsg

/-- The setpoint-reset branch of the suggestions section of
FaultCodeOneReport.create_report.  The argument is the sample variance of the
setpoint column; comparing it with 0 is equivalent to the std() == 0
comparison of the source, and a NaN variance (none) compares False. -/
def fc1ResetSuggestion (v : Option ℚ) : String :=
  if v = some 0 then fc1NoResetMsg else fc1ResetMsg

/-- The calibration branch of the suggestions section of
FaultCodeTwoReport.create_report. -/
def fc2CalSuggestion (p : Option ℚ) : String :=
  if optLt5 p then fc2OutMsg else fc2WithinMsg

/-- The outcome of one create_report invocation: the docx section items
composed before the function finished or aborted, the name of the missing
column when a KeyError aborted it, and the dataframe with the in-place
mutations applied. -/
structure RunResult where
  doc : List DocItem
  err : Option String
  df : DataFrame
  deriving DecidableEq, Repr

/-- The document create_report hands back to the caller: none when a missing
column aborted the run, in which case the partially composed items never
leave the function. -/
def RunResult.returned (r : RunResult) : Option (List DocItem) :=
  if r.err = none then some r.doc else none

/-- FaultCodeOneReport.create_report.  Sections are appended in source order;
a missing column aborts at its first access with the items composed so far
left in the RunResult but never returned to the caller.  The unused
flag_true_duct_static parameter of the source, immediately shadowed by the
tuple unpacking, is elided. -/
def FaultCodeOneReport.create_report (cfg : FaultCodeOneReport) (df : DataFrame)
    (output_col : Option String) (duct_static_col : Option String) : RunResult :=
  let doc0 : List DocItem :=
    [.heading 0 "Fault Condition One Report", .para fc1Description,
     .image "fc1_definition.png", .heading 2 "Dataset Plot"]
  match cfg.create_fan_plot df output_col with
  | (df1, some e) => ⟨doc0, some e, df1⟩
  | (df1, none) =>
    let doc1 := doc0 ++ [.image "fan_plot", .heading 2 "Dataset Statistics"]
    match cfg.summarize_fault_times df1 output_col with
    | .error e => ⟨doc1, some e, df1⟩
    | .ok s =>
      let doc2 := doc1 ++
        [.bullet (.totalDays s.total_days), .bullet (.totalHours s.total_hours),
         .bullet (.flaggedHours s.hours_fc1_mode), .bullet (.percentTrue s.percent_true),
         .bullet (.percentFalse s.percent_false), .para "",
         .heading 2 "Time-of-day Histogram Plots"]
      match FaultCodeOneReport.create_hist_plot df1 output_col duct_static_col with
      | (df2, .error e) => ⟨doc2, some e, df2⟩
      | (df2, .ok _buckets) =>
        let doc3 := doc2 ++ [.image "hist_plot"] ++
          (match s.flag_true_duct_static with
           | some v => [.bullet (.avgFlagDuctStatic v)]
           | none => []) ++
          [.para "", .heading 2 "VFD Speed Statistics"]
        match df2.col cfg.supply_vfd_speed_col with
        | none => ⟨doc3, some cfg.supply_vfd_speed_col, df2⟩
        | some _ =>
          let doc4 := doc3 ++
            [.bullet (.describeCol cfg.supply_vfd_speed_col),
             .heading 2 "Duct Pressure Statistics"]
          match df2.col cfg.duct_static_col with
          | none => ⟨doc4, some cfg.duct_static_col, df2⟩
          | some _ =>
            let doc5 := doc4 ++
              [.bullet (.describeCol cfg.duct_static_col),
               .heading 2 "Duct Pressure Setpoints Statistics"]
            match df2.col cfg.duct_static_setpoint_col with
            | none => ⟨doc5, some cfg.duct_static_setpoint_col, df2⟩
            | some setpoint =>
              let doc6 := doc5 ++
                [.bullet (.describeCol cfg.duct_static_setpoint_col),
                 .heading 2 "Suggestions based on data analysis",
                 .bullet (.suggestion (fc1PerfSuggestion s.percent_true)),
                 .bullet (.suggestion (fc1ResetSuggestion (sampleVar setpoint.vals))),
                 .footer]
              ⟨doc6, none, df2⟩

/-- FaultCodeTwoReport.create_report.  Same assembly logic with the FC2
sensor set; the conditional paragraph is gated on flag_true_mat alone and
interpolates all three conditional means. -/
def FaultCodeTwoReport.create_report (cfg : FaultCodeTwoReport) (df : DataFrame)
    (output_col : Option String) (mat_col : Option String) : RunResult :=
  let doc0 : List DocItem :=
    [.heading 0 "Fault Condition Two Report", .para fc2Description,
     .image "fc2_definition.png", .heading 2 "Dataset Plot"]
  match cfg.create_plot df output_col with
  | (df1, some e) => ⟨doc0, some e, df1⟩
  | (df1, none) =>
    let doc1 := doc0 ++ [.image "fan_plot", .heading 2 "Dataset Statistics"]
    match cfg.summarize_fault_times df1 output_col with
    | .error e => ⟨doc1, some e, df1⟩
    | .ok s =>
      let doc2 := doc1 ++
        [.bullet (.totalDays s.total_days), .bullet (.totalHours s.total_hours),
         .bullet (.flaggedHours s.hours_fc2_mode), .bullet (.percentTrue s.percent_true),
         .bullet (.percentFalse s.percent_false), .para "",
         .heading 2 "Time-of-day Histogram Plots"]
      match FaultCodeTwoReport.create_hist_plot df1 output_col mat_col with
      | (df2, .error e) => ⟨doc2, some e, df2⟩
      | (df2, .ok _buckets) =>
        let doc3 := doc2 ++ [.image "hist_plot"] ++
          (match s.flag_true_mat with
           | some v => [.bullet (.avgFlagTemps v s.flag_true_oat s.flag_true_rat)]
           | none => []) ++
          [.para "", .heading 2 "Mix Temp Statistics"]
        match df2.col cfg.mat_col with
        | none => ⟨doc3, some cfg.mat_col, df2⟩
        | some _ =>
          let doc4 := doc3 ++
            [.bullet (.describeCol cfg.mat_col), .heading 2 "Return Temp Statistics"]
          match df2.col cfg.rat_col with
          | none => ⟨doc4, some cfg.rat_col, df2⟩
          | some _ =>
            let doc5 := doc4 ++
              [.bullet (.describeCol cfg.rat_col), .heading 2 "Outside Temp Statistics"]
            match df2.col cfg.oat_col with
            | none => ⟨doc5, some cfg.oat_col, df2⟩
            | some _ =>
              let doc6 := doc5 ++
                [.bullet (.describeCol cfg.oat_col),
                 .heading 2 "Suggestions based on data analysis",
                 .bullet (.suggestion (fc2CalSuggestion s.percent_true)),
                 .footer]
              ⟨doc6, none, df2⟩

/-- Refinement definition written from the wording of claim C1: the sum of
interval deltas, each weighted by the flag at the leading (earlier) endpoint
sample of the interval.  It exists only to be compared with the behaviour of
the source expression hoursFlagged. -/
def flaggedHoursLeadingSpec : List (ℚ × ℚ) → ℚ
  | (t1, f1) :: (t2, f2) :: rest => (t2 - t1) * f1 + flaggedHoursLeadingSpec ((t2, f2) :: rest)
  | _ => 0

/-- Configuration used by concrete witness instances of the FC1 claims. -/
def fc1CfgW : FaultCodeOneReport :=
  ⟨0, 0, 0, "duct_static", "supply_vfd_speed", "duct_static_setpoint"⟩

/-- A two-row dataset used by concrete witness instances. -/
def dfTwoW : DataFrame :=
  ⟨[0, 1],
   [("fc1_flag", ⟨Dtype.int64, [some 0, some 1]⟩),
    ("duct_static", ⟨Dtype.float64, [some 1, some 2]⟩),
    ("supply_vfd_speed", ⟨Dtype.float64, [some 50, some 99]⟩),
    ("duct_static_setpoint", ⟨Dtype.float64, [some 1, some 1]⟩)]⟩

/-- A dataset with no rows at all, used by the C4 witness. -/
def dfEmptyW : DataFrame :=
  ⟨[], [("fc1_flag", ⟨Dtype.int64, []⟩), ("duct_static", ⟨Dtype.float64, []⟩)]⟩

/-- Concrete dataset for C6: two rows one hour apart, both flagged. -/
def dfHistW : DataFrame := ⟨[0, 1], [("fc1_flag", ⟨Dtype.int64, [some 1, some 1]⟩)]⟩

/-- Concrete dataset for the FC2 half of the C6 witness: one flagged row. -/
def dfHist2W : DataFrame := ⟨[5], [("fc2_flag", ⟨Dtype.int64, [some 1]⟩)]⟩

/-- The summary record summarize_fault_times produces for FC1 once both
columns resolve, as a function of the index and the two value lists. -/
def fc1SummaryOf (index : List ℚ) (flagvals staticvals : List (Option ℚ)) : FC1Summary :=
  { total_days := round2 (nansum (seriesDiff index) / 24)
    total_hours := nansum (seriesDiff index)
    hours_fc1_mode := hoursFlagged index flagvals
    percent_true := (nanMean flagvals).map (fun m => round2 (m * 100))
    percent_false := ((nanMean flagvals).map (fun m => round2 (m * 100))).map
      (fun p => round2 (100 - p))
    flag_true_duct_static := (nanMean (whereEqOne staticvals flagvals)).map round2 }

/-- The summary record summarize_fault_times produces for FC2 once all four
columns resolve. -/
def fc2SummaryOf (index : List ℚ)
    (flagvals matvals oatvals ratvals : List (Option ℚ)) : FC2Summary :=
  { total_days := round2 (nansum (seriesDiff index) / 24)
    total_hours := nansum (seriesDiff index)
    hours_fc2_mode := hoursFlagged index flagvals
    percent_true := (nanMean flagvals).map (fun m => round2 (m * 100))
    percent_false := ((nanMean flagvals).map (fun m => round2 (m * 100))).map
      (fun p => round2 (100 - p))
    flag_true_mat := (nanMean (whereEqOne matvals flagvals)).map round2
    flag_true_oat := (nanMean (whereEqOne oatvals flagvals)).map round2
    flag_true_rat := (nanMean (whereEqOne ratvals flagvals)).map round2 }

/-- The full section list FaultCodeOneReport.create_report composes when no
column is missing, as a function of the configuration, the summary and the
setpoint column feeding the std comparison. -/
def fc1DocBody (cfg : FaultCodeOneReport) (s : FC1Summary) (spCol : Column) : List DocItem :=
  [.heading 0 "Fault Condition One Report", .para fc1Description,
   .image "fc1_definition.png", .heading 2 "Dataset Plot",
   .image "fan_plot", .heading 2 "Dataset Statistics",
   .bullet (.totalDays s.total_days), .bullet (.totalHours s.total_hours),
   .bullet (.flaggedHours s.hours_fc1_mode), .bullet (.percentTrue s.percent_true),
   .bullet (.percentFalse s.percent_false), .para "",
   .heading 2 "Time-of-day Histogram Plots", .image "hist_plot"] ++
  (match s.flag_true_duct_static with
   | some v => [.bullet (.avgFlagDuctStatic v)]
   | none => []) ++
  [.para "", .heading 2 "VFD Speed Statistics",
   .bullet (.describeCol cfg.supply_vfd_speed_col),
   .heading 2 "Duct Pressure Statistics",
   .bullet (.describeCol cfg.duct_static_col),
   .heading 2 "Duct Pressure Setpoints Statistics",
   .bullet (.describeCol cfg.duct_static_setpoint_col),
   .heading 2 "Suggestions based on data analysis",
   .bullet (.suggestion (fc1PerfSuggestion s.percent_true)),
   .bullet (.suggestion (fc1ResetSuggestion (sampleVar spCol.vals))),
   .footer]

/-- The full section list FaultCodeTwoReport.create_report composes when no
column is missing. -/
def fc2DocBody (cfg : FaultCodeTwoReport) (s : FC2Summary) : List DocItem :=
  [.heading 0 "Fault Condition Two Report", .para fc2Description,
   .image "fc2_definition.png", .heading 2 "Dataset Plot",
   .image "fan_plot", .heading 2 "Dataset Statistics",
   .bullet (.totalDays s.total_days), .bullet (.totalHours s.total_hours),
   .bullet (.flaggedHours s.hours_fc2_mode), .bullet (.percentTrue s.percent_true),
   .bullet (.percentFalse s.percent_false), .para "",
   .heading 2 "Time-of-day Histogram Plots", .image "hist_plot"] ++
  (match s.flag_true_mat with
   | some v => [.bullet (.avgFlagTemps v s.flag_true_oat s.flag_true_rat)]
   | none => []) ++
  [.para "", .heading 2 "Mix Temp Statistics", .bullet (.describeCol cfg.mat_col),
   .heading 2 "Return Temp Statistics", .bullet (.describeCol cfg.rat_col),
   .heading 2 "Outside Temp Statistics", .bullet (.describeCol cfg.oat_col),
   .heading 2 "Suggestions based on data analysis",
   .bullet (.suggestion (fc2CalSuggestion s.percent_true)),
   .footer]

/-- The heading text of a section item, none for non-headings. -/
def headingText : DocItem → Option String
  | .heading _ t => some t
  | _ => none

/-- The payload of one of the five fixed statistic bullets, none otherwise. -/
def statBulletOf : DocItem → Option BulletText
  | .bullet (.totalDays v) => some (.totalDays v)
  | .bullet (.totalHours v) => some (.totalHours v)
  | .bullet (.flaggedHours v) => some (.flaggedHours v)
  | .bullet (.percentTrue v) => some (.percentTrue v)
  | .bullet (.percentFalse v) => some (.percentFalse v)
  | _ => none

/-- The name of an embedded image, none for other items. -/
def imageName : DocItem → Option String
  | .image n => some n
  | _ => none

/-- The payload of the FC1 conditional commentary bullet, none otherwise. -/
def condBullet1 : DocItem → Option ℚ
  | .bullet (.avgFlagDuctStatic v) => some v
  | _ => none

/-- The payload of the FC2 conditional commentary bullet, none otherwise. -/
def condBullet2 : DocItem → Option (ℚ × Option ℚ × Option ℚ)
  | .bullet (.avgFlagTemps m o r) => some (m, o, r)
  | _ => none

/-- Concrete dataset with a boolean-dtype flag column, for C9. -/
def dfBoolW : DataFrame :=
  ⟨[0, 1],
   [("fc1_flag", ⟨Dtype.bool, [some 0, some 1]⟩),
    ("duct_static", ⟨Dtype.float64, [some 1, some 2]⟩),
    ("supply_vfd_speed", ⟨Dtype.float64, [some 50, some 99]⟩),
    ("duct_static_setpoint", ⟨Dtype.float64, [some 1, some 1]⟩)]⟩

/-- Dataset lacking the flag column, for C8. -/
def dfNoFlagW : DataFrame := ⟨[0], [("duct_static", ⟨Dtype.float64, [some 1]⟩)]⟩

/-- Configuration used by concrete witness instances of the FC2 claims. -/
def fc2CfgW : FaultCodeTwoReport := ⟨0, 0, 0, "mat", "rat", "oat"⟩

/-- A two-row FC2 dataset used by concrete witness instances. -/
def df2W : DataFrame :=
  ⟨[0, 1],
   [("fc2_flag", ⟨Dtype.int64, [some 1, some 0]⟩),
    ("mat", ⟨Dtype.float64, [some 60, some 61]⟩),
    ("rat", ⟨Dtype.float64, [some 70, some 71]⟩),
    ("oat", ⟨Dtype.float64, [some 50, some 51]⟩)]⟩

theorem colAux_setColAux_self (name : String) (c : Column) (l : List (String × Column)) :
    colAux name (setColAux name c l) = some c := by
  induction l with
  | nil => simp [setColAux, colAux]
  | cons p rest ih =>
    obtain ⟨n, v⟩ := p
    by_cases h : n = name
    · simp [setColAux, colAux, h]
    · simp [setColAux, colAux, h, ih]

theorem colAux_setColAux_ne (m name : String) (c : Column) (l : List (String × Column))
    (h : m ≠ name) : colAux m (setColAux name c l) = colAux m l := by
  induction l with
  | nil =>
    have hnm : name ≠ m := Ne.symm h
    simp [setColAux, colAux, hnm]
  | cons p rest ih =>
    obtain ⟨n, v⟩ := p
    by_cases hn : n = name
    · subst hn
      have hnm : n ≠ m := Ne.symm h
      simp [setColAux, colAux, hnm]
    · simp [setColAux, colAux, hn, ih]

theorem col_setCol_self (df : DataFrame) (name : String) (c : Column) :
    (df.setCol name c).col name = some c :=
  colAux_setColAux_self name c df.cols

theorem col_setCol_ne (df : DataFrame) (m name : String) (c : Column) (h : m ≠ name) :
    (df.setCol name c).col m = df.col m :=
  colAux_setColAux_ne m name c df.cols h

theorem index_setCol (df : DataFrame) (name : String) (c : Column) :
    (df.setCol name c).index = df.index := rfl

theorem halfEvenRound_intCast (j : ℤ) : halfEvenRound (j : ℚ) = j := by
  unfold halfEvenRound
  rw [Int.floor_intCast]
  norm_num

theorem round2_intCast_div (j : ℤ) : round2 ((j : ℚ) / 100) = (j : ℚ) / 100 := by
  unfold round2
  rw [div_mul_cancel₀ _ (by norm_num : (100 : ℚ) ≠ 0), halfEvenRound_intCast]

theorem round2_hundredths (q : ℚ) : ∃ j : ℤ, round2 q = (j : ℚ) / 100 :=
  ⟨halfEvenRound (q * 100), rfl⟩

theorem round2_complement (q : ℚ) : round2 (100 - round2 q) = 100 - round2 q := by
  obtain ⟨j, hj⟩ := round2_hundredths q
  rw [hj]
  have h : (100 : ℚ) - (j : ℚ) / 100 = ((10000 - j : ℤ) : ℚ) / 100 := by
    push_cast
    ring
  rw [h, round2_intCast_div]

theorem round2_zero : round2 0 = 0 := by
  simpa using round2_intCast_div 0

theorem zip_head_flag_sum (t a b : ℚ) (rest : List (ℚ × ℚ)) :
    ((((t, a) :: rest).zip rest).map (fun p => (p.2.1 - p.1.1) * p.2.2)).sum =
      ((((t, b) :: rest).zip rest).map (fun p => (p.2.1 - p.1.1) * p.2.2)).sum := by
  cases rest with
  | nil => rfl
  | cons r rest2 => simp [List.zip_cons_cons]

theorem nansum_nanMul_diffAux (rows : List (ℚ × ℚ)) : ∀ prev : ℚ,
    nansum (nanMul (diffAux prev (rows.map Prod.fst)) (rows.map (fun r => some r.2))) =
      ((((prev, (0 : ℚ)) :: rows).zip rows).map (fun p => (p.2.1 - p.1.1) * p.2.2)).sum := by
  induction rows with
  | nil => intro prev; rfl
  | cons r rest ih =>
    intro prev
    obtain ⟨t, f⟩ := r
    simp only [List.map_cons, diffAux, nanMul, List.zipWith_cons_cons, List.zip_cons_cons,
      List.map_cons, List.sum_cons, nansum]
    rw [show nansum (List.zipWith
          (fun d f => match d, f with
            | some a, some b => some (a * b)
            | _, _ => none)
          (diffAux t (rest.map Prod.fst)) (rest.map (fun r => some r.2))) =
        nansum (nanMul (diffAux t (rest.map Prod.fst)) (rest.map (fun r => some r.2))) from rfl]
    rw [ih t, zip_head_flag_sum t 0 f]

/-- C1 (amended): for every timeline given as rows of timestamp and 0/1 flag
value, the flagged elapsed hours computed by summarize_fault_times in both
report classes equals the sum of inter-sample deltas each weighted by the
flag at the TRAILING (later) endpoint sample of its interval, because
Series.diff aligns each delta with the later sample. -/
theorem claim1_flagged_hours_trailing (rows : List (ℚ × ℚ)) :
    hoursFlagged (rows.map Prod.fst) (rows.map (fun r => some r.2)) =
      ((rows.zip rows.tail).map (fun p => (p.2.1 - p.1.1) * p.2.2)).sum := by
  cases rows with
  | nil => rfl
  | cons r rest =>
    obtain ⟨t, f⟩ := r
    have h1 : hoursFlagged ((⟨t, f⟩ :: rest).map Prod.fst)
        ((⟨t, f⟩ :: rest).map (fun r => some r.2)) =
        nansum (nanMul (diffAux t (rest.map Prod.fst)) (rest.map (fun r => some r.2))) := rfl
    rw [h1, nansum_nanMul_diffAux rest t]
    simpa using zip_head_flag_sum t 0 f rest

/-- C1 (counterexample): a two-sample timeline one hour apart whose flag is 1
at the first sample and 0 at the second.  The claim predicts one flagged
hour, weighting the interval by the flag at its earlier endpoint; the code
computes zero flagged hours, weighting by the later endpoint. -/
theorem claim1_counterexample :
    hoursFlagged [0, 1] [some 1, some 0] = 0 ∧
    flaggedHoursLeadingSpec [(0, 1), (1, 0)] = 1 ∧
    hoursFlagged [0, 1] [some 1, some 0] ≠ flaggedHoursLeadingSpec [(0, 1), (1, 0)] := by
  refine ⟨?_, ?_, ?_⟩ <;>
    norm_num [hoursFlagged, seriesDiff, diffAux, nanMul, nansum, flaggedHoursLeadingSpec]

theorem fc1_summarize_ok (cfg : FaultCodeOneReport) (df : DataFrame) (oc : Option String)
    (flag static : Column)
    (hf : df.col (oc.getD "fc1_flag") = some flag)
    (hs : df.col cfg.duct_static_col = some static) :
    cfg.summarize_fault_times df oc = .ok
      { total_days := round2 (nansum (seriesDiff df.index) / 24)
        total_hours := nansum (seriesDiff df.index)
        hours_fc1_mode := hoursFlagged df.index flag.vals
        percent_true := (nanMean flag.vals).map (fun m => round2 (m * 100))
        percent_false := ((nanMean flag.vals).map (fun m => round2 (m * 100))).map
          (fun p => round2 (100 - p))
        flag_true_duct_static := (nanMean (whereEqOne static.vals flag.vals)).map round2 } := by
  simp only [FaultCodeOneReport.summarize_fault_times, hf, hs]

theorem fc2_summarize_ok (cfg : FaultCodeTwoReport) (df : DataFrame) (oc : Option String)
    (flag mat oat rat : Column)
    (hf : df.col (oc.getD "fc2_flag") = some flag)
    (hm : df.col cfg.mat_col = some mat)
    (ho : df.col cfg.oat_col = some oat)
    (hr : df.col cfg.rat_col = some rat) :
    cfg.summarize_fault_times df oc = .ok
      { total_days := round2 (nansum (seriesDiff df.index) / 24)
        total_hours := nansum (seriesDiff df.index)
        hours_fc2_mode := hoursFlagged df.index flag.vals
        percent_true := (nanMean flag.vals).map (fun m => round2 (m * 100))
        percent_false := ((nanMean flag.vals).map (fun m => round2 (m * 100))).map
          (fun p => round2 (100 - p))
        flag_true_mat := (nanMean (whereEqOne mat.vals flag.vals)).map round2
        flag_true_oat := (nanMean (whereEqOne oat.vals flag.vals)).map round2
        flag_true_rat := (nanMean (whereEqOne rat.vals flag.vals)).map round2 } := by
  simp only [FaultCodeTwoReport.summarize_fault_times, hf, hm, ho, hr]

/-- C3 (confirmed, both report classes): percent_true is the flag-column mean
times 100 rounded to two decimals, percent_false is derived from it as 100
minus percent_true (the re-rounding of the source changes nothing because
percent_true is already a whole number of hundredths), and whenever the mean
is defined the pair sums to exactly 100. -/
theorem claim3_percent_pair :
    (∀ (cfg : FaultCodeOneReport) (df : DataFrame) (oc : Option String)
        (s : FC1Summary) (c : Column) (m : ℚ),
      cfg.summarize_fault_times df oc = .ok s →
      df.col (oc.getD "fc1_flag") = some c →
      nanMean c.vals = some m →
      s.percent_true = some (round2 (m * 100)) ∧
      s.percent_false = some (100 - round2 (m * 100)) ∧
      ∀ p q : ℚ, s.percent_true = some p → s.percent_false = some q → p + q = 100) ∧
    (∀ (cfg : FaultCodeTwoReport) (df : DataFrame) (oc : Option String)
        (s : FC2Summary) (c : Column) (m : ℚ),
      cfg.summarize_fault_times df oc = .ok s →
      df.col (oc.getD "fc2_flag") = some c →
      nanMean c.vals = some m →
      s.percent_true = some (round2 (m * 100)) ∧
      s.percent_false = some (100 - round2 (m * 100)) ∧
      ∀ p q : ℚ, s.percent_true = some p → s.percent_false = some q → p + q = 100) := by
  constructor
  · intro cfg df oc s c m hok hf hm
    cases hs : df.col cfg.duct_static_col with
    | none => simp [FaultCodeOneReport.summarize_fault_times, hf, hs] at hok
    | some static =>
      rw [fc1_summarize_ok cfg df oc c static hf hs] at hok
      injection hok with hok
      subst hok
      refine ⟨by simp [hm], by simp [hm, round2_complement], ?_⟩
      intro p q hp hq
      simp [hm] at hp hq
      rw [round2_complement] at hq
      rw [← hp, ← hq]
      ring
  · intro cfg df oc s c m hok hf hm
    cases hmat : df.col cfg.mat_col with
    | none => simp [FaultCodeTwoReport.summarize_fault_times, hf, hmat] at hok
    | some mat =>
      cases hoat : df.col cfg.oat_col with
      | none => simp [FaultCodeTwoReport.summarize_fault_times, hf, hmat, hoat] at hok
      | some oat =>
        cases hrat : df.col cfg.rat_col with
        | none => simp [FaultCodeTwoReport.summarize_fault_times, hf, hmat, hoat, hrat] at hok
        | some rat =>
          rw [fc2_summarize_ok cfg df oc c mat oat rat hf hmat hoat hrat] at hok
          injection hok with hok
          subst hok
          refine ⟨by simp [hm], by simp [hm, round2_complement], ?_⟩
          intro p q hp hq
          simp [hm] at hp hq
          rw [round2_complement] at hq
          rw [← hp, ← hq]
          ring

/-- C3 witness: on a concrete two-row dataset with flag values 0 and 1 the
percentages are 50 and 50 and sum to 100. -/
theorem claim3_percent_pair_witness :
    ∃ s : FC1Summary, fc1CfgW.summarize_fault_times dfTwoW none = .ok s ∧
      s.percent_true = some (round2 ((1 / 2) * 100)) ∧
      s.percent_false = some (100 - round2 ((1 / 2) * 100)) := by
  have hf : dfTwoW.col ((none : Option String).getD "fc1_flag") =
      some ⟨Dtype.int64, [some 0, some 1]⟩ := by decide
  have hs : dfTwoW.col fc1CfgW.duct_static_col =
      some ⟨Dtype.float64, [some 1, some 2]⟩ := by decide
  have hok := fc1_summarize_ok fc1CfgW dfTwoW none _ _ hf hs
  have hm : nanMean [some (0 : ℚ), some 1] = some (1 / 2) := by
    simp [nanMean]
  have h := (claim3_percent_pair.1 fc1CfgW dfTwoW none _ _ _ hok hf hm)
  exact ⟨_, hok, h.1, h.2.1⟩

theorem nansum_seriesDiff_short (ts : List ℚ) (h : ts.length ≤ 1) :
    nansum (seriesDiff ts) = 0 := by
  match ts with
  | [] => rfl
  | [t] => rfl
  | t1 :: t2 :: rest => simp at h

theorem hoursFlagged_short (ts : List ℚ) (fs : List (Option ℚ)) (h : ts.length ≤ 1) :
    hoursFlagged ts fs = 0 := by
  match ts with
  | [] => rfl
  | [t] =>
    cases fs with
    | nil => rfl
    | cons f fs2 => cases f <;> rfl
  | t1 :: t2 :: rest => simp at h

/-- C4 (confirmed): undefined inter-sample deltas are excluded from every
duration sum, so a timeline with at most one row has zero total days, zero
total hours and zero flagged hours; an empty timeline additionally degrades
the percentage and conditional-mean aggregates to NaN, and
summarize_fault_times still succeeds. -/
theorem claim4_degenerate_durations
    (cfg : FaultCodeOneReport) (df : DataFrame) (oc : Option String)
    (s : FC1Summary) (hok : cfg.summarize_fault_times df oc = .ok s) :
    (df.index.length ≤ 1 →
      s.total_days = 0 ∧ s.total_hours = 0 ∧ s.hours_fc1_mode = 0) ∧
    (∀ c : Column, df.index = [] → df.col (oc.getD "fc1_flag") = some c → c.vals = [] →
      s.percent_true = none ∧ s.percent_false = none ∧ s.flag_true_duct_static = none) := by
  cases hf : df.col (oc.getD "fc1_flag") with
  | none => simp [FaultCodeOneReport.summarize_fault_times, hf] at hok
  | some flag =>
    cases hs : df.col cfg.duct_static_col with
    | none => simp [FaultCodeOneReport.summarize_fault_times, hf, hs] at hok
    | some static =>
      rw [fc1_summarize_ok cfg df oc flag static hf hs] at hok
      injection hok with hok
      subst hok
      constructor
      · intro hlen
        refine ⟨?_, nansum_seriesDiff_short df.index hlen,
          hoursFlagged_short df.index flag.vals hlen⟩
        simp [nansum_seriesDiff_short df.index hlen, round2_zero]
      · intro c hidx hc hvals
        injection hc with hc
        subst hc
        simp [hvals, nanMean, whereEqOne]

/-- C4 witness: the empty dataset yields zero duration sums, NaN percentage
and conditional-mean aggregates, and no error. -/
theorem claim4_degenerate_durations_witness :
    ∃ s : FC1Summary, fc1CfgW.summarize_fault_times dfEmptyW none = .ok s ∧
      s.total_days = 0 ∧ s.total_hours = 0 ∧ s.hours_fc1_mode = 0 ∧
      s.percent_true = none ∧ s.percent_false = none ∧ s.flag_true_duct_static = none := by
  have hf : dfEmptyW.col ((none : Option String).getD "fc1_flag") =
      some ⟨Dtype.int64, []⟩ := by decide
  have hs : dfEmptyW.col fc1CfgW.duct_static_col = some ⟨Dtype.float64, []⟩ := by decide
  have hok := fc1_summarize_ok fc1CfgW dfEmptyW none _ _ hf hs
  have h := claim4_degenerate_durations fc1CfgW dfEmptyW none _ hok
  have h1 := h.1 (by simp [dfEmptyW])
  have h2 := h.2 ⟨Dtype.int64, []⟩ rfl hf rfl
  exact ⟨_, hok, h1.1, h1.2.1, h1.2.2, h2.1, h2.2.1, h2.2.2⟩

/-- C10 (confirmed): when the setpoint column offers at most one value its
sample standard deviation is NaN, the comparison std == 0 is then False, and
the suggestions section of FaultCodeOneReport.create_report falls into the
reset-detected (Good) branch. -/
theorem claim10_nan_std_good_branch (xs : List (Option ℚ)) (h : xs.length ≤ 1) :
    sampleVar xs = none ∧ sampleVar xs ≠ some 0 ∧
    fc1ResetSuggestion (sampleVar xs) = "Duct pressure reset detected (Good)" := by
  have hlen : (xs.filterMap id).length < 2 :=
    lt_of_le_of_lt (le_trans (List.length_filterMap_le id xs) h) (by norm_num)
  have hv : sampleVar xs = none := by
    unfold sampleVar
    simp [hlen]
  exact ⟨hv, by simp [hv], by simp [hv, fc1ResetSuggestion, fc1ResetMsg]⟩

/-- C10 witness: a one-value setpoint column takes the Good branch. -/
theorem claim10_nan_std_good_branch_witness :
    sampleVar [some 3] = none ∧ sampleVar [some 3] ≠ some 0 ∧
    fc1ResetSuggestion (sampleVar [some 3]) = "Duct pressure reset detected (Good)" :=
  claim10_nan_std_good_branch [some 3] (by norm_num)

/-- C2 (confirmed): the suggestion sections of both create_report functions
select messages exactly by the literal threshold table.  fc1PerfSuggestion,
fc1ResetSuggestion and fc2CalSuggestion are the branch selectors the two
create_report embeddings invoke; the reset selector receives the sample
variance of the setpoint column, whose comparison with zero coincides with
the std() == 0 comparison of the source. -/
theorem claim2_suggestion_thresholds (p v : ℚ) :
    (5 < p → fc1PerfSuggestion (some p) = fc1PoorMsg) ∧
    (p ≤ 5 → fc1PerfSuggestion (some p) = fc1GoodMsg) ∧
    (v = 0 → fc1ResetSuggestion (some v) = fc1NoResetMsg) ∧
    (v ≠ 0 → fc1ResetSuggestion (some v) = fc1ResetMsg) ∧
    (p < 5 → fc2CalSuggestion (some p) = fc2OutMsg) ∧
    (5 ≤ p → fc2CalSuggestion (some p) = fc2WithinMsg) := by
  refine ⟨fun h => ?_, fun h => ?_, fun h => ?_, fun h => ?_, fun h => ?_, fun h => ?_⟩
  · simp [fc1PerfSuggestion, optGt5, h]
  · simp [fc1PerfSuggestion, optGt5, not_lt.mpr h]
  · simp [fc1ResetSuggestion, h]
  · simp [fc1ResetSuggestion, h]
  · simp [fc2CalSuggestion, optLt5, h]
  · simp [fc2CalSuggestion, optLt5, not_lt.mpr h]

/-- C2 witness: the table rows at the concrete percentages 10 and 3 and the
concrete variances 0 and 2, matching Scenario D of the specification. -/
theorem claim2_suggestion_thresholds_witness :
    fc1PerfSuggestion (some 10) = fc1PoorMsg ∧
    fc1PerfSuggestion (some 3) = fc1GoodMsg ∧
    fc1ResetSuggestion (some 0) = fc1NoResetMsg ∧
    fc1ResetSuggestion (some 2) = fc1ResetMsg ∧
    fc2CalSuggestion (some 3) = fc2OutMsg ∧
    fc2CalSuggestion (some 10) = fc2WithinMsg :=
  ⟨(claim2_suggestion_thresholds 10 0).1 (by norm_num),
   (claim2_suggestion_thresholds 3 0).2.1 (by norm_num),
   (claim2_suggestion_thresholds 0 0).2.2.1 rfl,
   (claim2_suggestion_thresholds 0 2).2.2.2.1 (by norm_num),
   (claim2_suggestion_thresholds 3 0).2.2.2.2.1 (by norm_num),
   (claim2_suggestion_thresholds 10 0).2.2.2.2.2 (by norm_num)⟩

theorem foldl_min_le_init (l : List ℚ) : ∀ a : ℚ, l.foldl min a ≤ a := by
  induction l with
  | nil => intro a; simp
  | cons y ys ih => intro a; exact le_trans (ih (min a y)) (min_le_left a y)

theorem foldl_min_le_mem (l : List ℚ) : ∀ a x : ℚ, x ∈ l → l.foldl min a ≤ x := by
  induction l with
  | nil => intro a x hx; cases hx
  | cons y ys ih =>
    intro a x hx
    rcases List.mem_cons.mp hx with h | h
    · subst h
      exact le_trans (foldl_min_le_init ys (min a x)) (min_le_right a x)
    · exact ih (min a y) x h

theorem listMin_le (l : List ℚ) (x : ℚ) (hx : x ∈ l) : listMin l ≤ x := by
  cases l with
  | nil => cases hx
  | cons y ys =>
    rcases List.mem_cons.mp hx with h | h
    · subst h; exact foldl_min_le_init ys x
    · exact foldl_min_le_mem ys y x h

theorem le_foldl_max_init (l : List ℚ) : ∀ a : ℚ, a ≤ l.foldl max a := by
  induction l with
  | nil => intro a; simp
  | cons y ys ih => intro a; exact le_trans (le_max_left a y) (ih (max a y))

theorem le_foldl_max_mem (l : List ℚ) : ∀ a x : ℚ, x ∈ l → x ≤ l.foldl max a := by
  induction l with
  | nil => intro a x hx; cases hx
  | cons y ys ih =>
    intro a x hx
    rcases List.mem_cons.mp hx with h | h
    · subst h
      exact le_trans (le_max_right a x) (le_foldl_max_init ys (max a x))
    · exact ih (max a y) x h

theorem le_listMax (l : List ℚ) (x : ℚ) (hx : x ∈ l) : x ≤ listMax l := by
  cases l with
  | nil => cases hx
  | cons y ys =>
    rcases List.mem_cons.mp hx with h | h
    · subst h; exact le_foldl_max_init ys x
    · exact le_foldl_max_mem ys y x h

theorem histIdx_lt_ten (lo hi x : ℚ) (h1 : lo ≤ x) (h2 : x ≤ hi) (h3 : lo < hi) :
    histIdx lo hi x < 10 := by
  unfold histIdx
  by_cases he : x = hi
  · simp [he]
  · rw [if_neg he]
    have hxlt : x < hi := lt_of_le_of_ne h2 he
    have hpos : 0 < hi - lo := by linarith
    have hq : (x - lo) * 10 / (hi - lo) < 10 := by
      rw [div_lt_iff₀ hpos]
      nlinarith
    have hz : ⌊(x - lo) * 10 / (hi - lo)⌋ < (10 : ℤ) := by
      rw [Int.floor_lt]
      push_cast
      exact hq
    omega

theorem sum_map_range_eq (g : ℕ → ℕ) (n : ℕ) :
    ((List.range n).map g).sum = ∑ k in Finset.range n, g k := by
  induction n with
  | zero => rfl
  | succ n ih =>
    rw [List.range_succ, List.map_append, List.sum_append, Finset.sum_range_succ, ih]
    simp

theorem count_partition (f : ℚ → ℕ) (n : ℕ) (l : List ℚ) (h : ∀ x ∈ l, f x < n) :
    (∑ k in Finset.range n, (l.filter (fun x => f x = k)).length) = l.length := by
  induction l with
  | nil => simp
  | cons x xs ih =>
    have hx : f x < n := h x (List.mem_cons_self x xs)
    have hxs : ∀ y ∈ xs, f y < n := fun y hy => h y (List.mem_cons_of_mem x hy)
    have hstep : ∀ k : ℕ, ((x :: xs).filter (fun y => f y = k)).length =
        (if f x = k then 1 else 0) + (xs.filter (fun y => f y = k)).length := by
      intro k
      by_cases hk : f x = k <;> simp [List.filter_cons, hk] <;> omega
    simp only [hstep]
    rw [Finset.sum_add_distrib, ih hxs, Finset.sum_ite_eq]
    simp [Finset.mem_range, hx]
    omega

theorem histBins_sum (lo hi : ℚ) (data : List ℚ)
    (hb : ∀ x ∈ data, lo ≤ x ∧ x ≤ hi) (hlt : lo < hi) :
    (histBins lo hi data).sum = data.length := by
  unfold histBins
  rw [sum_map_range_eq]
  exact count_partition (histIdx lo hi) 10 data
    (fun x hx => histIdx_lt_ten lo hi x (hb x hx).1 (hb x hx).2 hlt)

theorem histBins_length (lo hi : ℚ) (data : List ℚ) : (histBins lo hi data).length = 10 := by
  simp [histBins]

theorem histCounts10_length (data : List ℚ) : (histCounts10 data).length = 10 := by
  by_cases hne : data = []
  · simp [histCounts10, hne]
  · simp [histCounts10, hne, histBins_length]

theorem histCounts10_sum (data : List ℚ) : (histCounts10 data).sum = data.length := by
  by_cases hne : data = []
  · subst hne; simp [histCounts10]
  · obtain ⟨x, xs, rfl⟩ := List.exists_cons_of_ne_nil hne
    have hxmem : x ∈ x :: xs := List.mem_cons_self x xs
    have hminmax : listMin (x :: xs) ≤ listMax (x :: xs) :=
      le_trans (listMin_le _ x hxmem) (le_listMax _ x hxmem)
    by_cases hdeg : listMin (x :: xs) = listMax (x :: xs)
    · have hrw : histCounts10 (x :: xs) =
          histBins (listMin (x :: xs) - 1 / 2) (listMax (x :: xs) + 1 / 2) (x :: xs) := by
        simp [histCounts10, hdeg]
      rw [hrw]
      apply histBins_sum
      · intro y hy
        have h1 := listMin_le (x :: xs) y hy
        have h2 := le_listMax (x :: xs) y hy
        constructor <;> linarith
      · linarith
    · have hrw : histCounts10 (x :: xs) =
          histBins (listMin (x :: xs)) (listMax (x :: xs)) (x :: xs) := by
        simp [histCounts10, hdeg]
      rw [hrw]
      apply histBins_sum
      · intro y hy
        exact ⟨listMin_le (x :: xs) y hy, le_listMax (x :: xs) y hy⟩
      · exact lt_of_le_of_ne hminmax hdeg

theorem hourColVals_filterMap (ts : List ℚ) :
    ∀ fs : List (Option ℚ), (hourColVals ts fs).filterMap id =
      ((ts.zip fs).filter (fun p => p.2 = some 1)).map (fun p => ((hourOfDay p.1 : ℚ))) := by
  induction ts with
  | nil => intro fs; cases fs <;> rfl
  | cons t ts ih =>
    intro fs
    cases fs with
    | nil => rfl
    | cons f fs =>
      have ih2 := ih fs
      simp only [hourColVals] at ih2
      by_cases hf : f = some 1
      · simp [hourColVals, List.zip_cons_cons, List.filter_cons, hf, List.filterMap_cons, ih2]
      · simp [hourColVals, List.zip_cons_cons, List.filter_cons, hf, List.filterMap_cons, ih2]

/-- C6 (amended, both report classes): create_hist_plot histograms exactly
the hour-of-day values of the rows whose flag equals 1; the histogram has 10
buckets (the matplotlib default, not 24), the bucket counts sum exactly to
the number of flagged rows, and when no row is flagged every bucket is empty
and no error is raised. -/
theorem claim6_hist_amended :
    (∀ (df : DataFrame) (oc dsc : Option String) (c : Column),
      df.col (oc.getD "fc1_flag") = some c →
      ∃ buckets : List ℕ,
        (FaultCodeOneReport.create_hist_plot df oc dsc).2 = .ok buckets ∧
        buckets = histCounts10 (((df.index.zip c.vals).filter (fun p => p.2 = some 1)).map
          (fun p => ((hourOfDay p.1 : ℚ)))) ∧
        buckets.length = 10 ∧
        buckets.sum = ((df.index.zip c.vals).filter (fun p => p.2 = some 1)).length ∧
        (((df.index.zip c.vals).filter (fun p => p.2 = some 1)) = [] →
          buckets = List.replicate 10 0)) ∧
    (∀ (df : DataFrame) (oc dsc : Option String) (c : Column),
      df.col (oc.getD "fc2_flag") = some c →
      ∃ buckets : List ℕ,
        (FaultCodeTwoReport.create_hist_plot df oc dsc).2 = .ok buckets ∧
        buckets = histCounts10 (((df.index.zip c.vals).filter (fun p => p.2 = some 1)).map
          (fun p => ((hourOfDay p.1 : ℚ)))) ∧
        buckets.length = 10 ∧
        buckets.sum = ((df.index.zip c.vals).filter (fun p => p.2 = some 1)).length ∧
        (((df.index.zip c.vals).filter (fun p => p.2 = some 1)) = [] →
          buckets = List.replicate 10 0)) := by
  constructor
  · intro df oc dsc c hc
    refine ⟨histCounts10 ((hourColVals df.index c.vals).filterMap id), ?_, ?_, ?_, ?_, ?_⟩
    · simp [FaultCodeOneReport.create_hist_plot, hc]
    · rw [hourColVals_filterMap]
    · exact histCounts10_length _
    · rw [hourColVals_filterMap, histCounts10_sum, List.length_map]
    · intro hnil
      rw [hourColVals_filterMap, hnil]
      simp [histCounts10]
  · intro df oc dsc c hc
    refine ⟨histCounts10 ((hourColVals df.index c.vals).filterMap id), ?_, ?_, ?_, ?_, ?_⟩
    · simp [FaultCodeTwoReport.create_hist_plot, hc]
    · rw [hourColVals_filterMap]
    · exact histCounts10_length _
    · rw [hourColVals_filterMap, histCounts10_sum, List.length_map]
    · intro hnil
      rw [hourColVals_filterMap, hnil]
      simp [histCounts10]

/-- C6 (counterexample): on a dataset with flagged rows the rendered
histogram has 10 buckets, not the 24 the claim states, because ax.hist is
called without a bins argument and matplotlib defaults to 10 bins. -/
theorem claim6_counterexample :
    ∃ buckets : List ℕ,
      (FaultCodeOneReport.create_hist_plot dfHistW none none).2 = .ok buckets ∧
      buckets.length = 10 ∧ ¬ buckets.length = 24 := by
  refine ⟨histCounts10 ((hourColVals dfHistW.index [some 1, some 1]).filterMap id),
    ?_, histCounts10_length _, ?_⟩
  · simp [FaultCodeOneReport.create_hist_plot, dfHistW, DataFrame.col, colAux]
  · rw [histCounts10_length]
    norm_num

/-- C6 witness: the amended statement instantiated on concrete datasets for
both report classes, with bucket sums 2 and 1 matching the flagged rows. -/
theorem claim6_hist_amended_witness :
    (∃ buckets : List ℕ,
      (FaultCodeOneReport.create_hist_plot dfHistW none none).2 = .ok buckets ∧
      buckets.length = 10 ∧ buckets.sum = 2) ∧
    (∃ buckets : List ℕ,
      (FaultCodeTwoReport.create_hist_plot dfHist2W none none).2 = .ok buckets ∧
      buckets.length = 10 ∧ buckets.sum = 1) := by
  constructor
  · obtain ⟨buckets, h1, _h2, h3, h4, _h5⟩ :=
      claim6_hist_amended.1 dfHistW none none ⟨Dtype.int64, [some 1, some 1]⟩ rfl
    refine ⟨buckets, h1, h3, ?_⟩
    rw [h4]
    simp [dfHistW, List.zip_cons_cons, List.filter_cons]
  · obtain ⟨buckets, h1, _h2, h3, h4, _h5⟩ :=
      claim6_hist_amended.2 dfHist2W none none ⟨Dtype.int64, [some 1]⟩ rfl
    refine ⟨buckets, h1, h3, ?_⟩
    rw [h4]
    simp [dfHist2W, List.zip_cons_cons, List.filter_cons]

theorem fc1_create_report_ok (cfg : FaultCodeOneReport) (df : DataFrame)
    (oc dsc : Option String) (cflag cst cvfd csp : Column)
    (hflag : df.col (oc.getD "fc1_flag") = some cflag)
    (hst : df.col cfg.duct_static_col = some cst)
    (hvfd : df.col cfg.supply_vfd_speed_col = some cvfd)
    (hsp : df.col cfg.duct_static_setpoint_col = some csp)
    (ne1 : cfg.duct_static_col ≠ oc.getD "fc1_flag")
    (ne2 : cfg.supply_vfd_speed_col ≠ oc.getD "fc1_flag")
    (ne3 : cfg.duct_static_setpoint_col ≠ oc.getD "fc1_flag")
    (ne4 : cfg.supply_vfd_speed_col ≠ "hour_of_the_day_fc1")
    (ne5 : cfg.duct_static_col ≠ "hour_of_the_day_fc1")
    (ne6 : cfg.duct_static_setpoint_col ≠ "hour_of_the_day_fc1") :
    cfg.create_report df oc dsc =
      ⟨fc1DocBody cfg (fc1SummaryOf df.index cflag.astypeInt.vals cst.vals) csp,
       none,
       (df.setCol (oc.getD "fc1_flag") cflag.astypeInt).setCol "hour_of_the_day_fc1"
         ⟨Dtype.float64, hourColVals df.index cflag.astypeInt.vals⟩⟩ := by
  have hdf1st : (df.setCol (oc.getD "fc1_flag") cflag.astypeInt).col cfg.duct_static_col =
      some cst := by
    rw [col_setCol_ne _ _ _ _ ne1]; exact hst
  have hdf1vfd : (df.setCol (oc.getD "fc1_flag") cflag.astypeInt).col cfg.supply_vfd_speed_col =
      some cvfd := by
    rw [col_setCol_ne _ _ _ _ ne2]; exact hvfd
  have hfan : cfg.create_fan_plot df oc = (df.setCol (oc.getD "fc1_flag") cflag.astypeInt, none) := by
    simp [FaultCodeOneReport.create_fan_plot, hflag, hdf1st, hdf1vfd]
  have hsum : cfg.summarize_fault_times (df.setCol (oc.getD "fc1_flag") cflag.astypeInt) oc =
      .ok (fc1SummaryOf df.index cflag.astypeInt.vals cst.vals) :=
    fc1_summarize_ok cfg _ oc cflag.astypeInt cst
      (col_setCol_self df (oc.getD "fc1_flag") cflag.astypeInt) hdf1st
  have hhist : FaultCodeOneReport.create_hist_plot
      (df.setCol (oc.getD "fc1_flag") cflag.astypeInt) oc dsc =
      ((df.setCol (oc.getD "fc1_flag") cflag.astypeInt).setCol "hour_of_the_day_fc1"
         ⟨Dtype.float64, hourColVals df.index cflag.astypeInt.vals⟩,
       .ok (histCounts10 ((hourColVals df.index cflag.astypeInt.vals).filterMap id))) := by
    simp [FaultCodeOneReport.create_hist_plot, index_setCol,
      col_setCol_self df (oc.getD "fc1_flag") cflag.astypeInt]
  have hdf2vfd : ((df.setCol (oc.getD "fc1_flag") cflag.astypeInt).setCol "hour_of_the_day_fc1"
      ⟨Dtype.float64, hourColVals df.index cflag.astypeInt.vals⟩).col cfg.supply_vfd_speed_col =
      some cvfd := by
    rw [col_setCol_ne _ _ _ _ ne4, col_setCol_ne _ _ _ _ ne2]; exact hvfd
  have hdf2st : ((df.setCol (oc.getD "fc1_flag") cflag.astypeInt).setCol "hour_of_the_day_fc1"
      ⟨Dtype.float64, hourColVals df.index cflag.astypeInt.vals⟩).col cfg.duct_static_col =
      some cst := by
    rw [col_setCol_ne _ _ _ _ ne5, col_setCol_ne _ _ _ _ ne1]; exact hst
  have hdf2sp : ((df.setCol (oc.getD "fc1_flag") cflag.astypeInt).setCol "hour_of_the_day_fc1"
      ⟨Dtype.float64, hourColVals df.index cflag.astypeInt.vals⟩).col cfg.duct_static_setpoint_col =
      some csp := by
    rw [col_setCol_ne _ _ _ _ ne6, col_setCol_ne _ _ _ _ ne3]; exact hsp
  simp only [FaultCodeOneReport.create_report, hfan, hsum, hhist, hdf2vfd, hdf2st, hdf2sp]
  simp [fc1DocBody]

theorem fc2_create_report_ok (cfg : FaultCodeTwoReport) (df : DataFrame)
    (oc mc : Option String) (cflag cmat crat coat : Column)
    (hflag : df.col (oc.getD "fc2_flag") = some cflag)
    (hmat : df.col cfg.mat_col = some cmat)
    (hrat : df.col cfg.rat_col = some crat)
    (hoat : df.col cfg.oat_col = some coat)
    (ne1 : cfg.mat_col ≠ oc.getD "fc2_flag")
    (ne2 : cfg.rat_col ≠ oc.getD "fc2_flag")
    (ne3 : cfg.oat_col ≠ oc.getD "fc2_flag")
    (ne4 : cfg.mat_col ≠ "hour_of_the_day_fc2")
    (ne5 : cfg.rat_col ≠ "hour_of_the_day_fc2")
    (ne6 : cfg.oat_col ≠ "hour_of_the_day_fc2") :
    cfg.create_report df oc mc =
      ⟨fc2DocBody cfg (fc2SummaryOf df.index cflag.astypeInt.vals cmat.vals coat.vals crat.vals),
       none,
       (df.setCol (oc.getD "fc2_flag") cflag.astypeInt).setCol "hour_of_the_day_fc2"
         ⟨Dtype.float64, hourColVals df.index cflag.astypeInt.vals⟩⟩ := by
  have hdf1mat : (df.setCol (oc.getD "fc2_flag") cflag.astypeInt).col cfg.mat_col =
      some cmat := by
    rw [col_setCol_ne _ _ _ _ ne1]; exact hmat
  have hdf1rat : (df.setCol (oc.getD "fc2_flag") cflag.astypeInt).col cfg.rat_col =
      some crat := by
    rw [col_setCol_ne _ _ _ _ ne2]; exact hrat
  have hdf1oat : (df.setCol (oc.getD "fc2_flag") cflag.astypeInt).col cfg.oat_col =
      some coat := by
    rw [col_setCol_ne _ _ _ _ ne3]; exact hoat
  have hfan : cfg.create_plot df oc = (df.setCol (oc.getD "fc2_flag") cflag.astypeInt, none) := by
    simp [FaultCodeTwoReport.create_plot, hflag, hdf1mat, hdf1rat, hdf1oat]
  have hsum : cfg.summarize_fault_times (df.setCol (oc.getD "fc2_flag") cflag.astypeInt) oc =
      .ok (fc2SummaryOf df.index cflag.astypeInt.vals cmat.vals coat.vals crat.vals) :=
    fc2_summarize_ok cfg _ oc cflag.astypeInt cmat coat crat
      (col_setCol_self df (oc.getD "fc2_flag") cflag.astypeInt) hdf1mat hdf1oat hdf1rat
  have hhist : FaultCodeTwoReport.create_hist_plot
      (df.setCol (oc.getD "fc2_flag") cflag.astypeInt) oc mc =
      ((df.setCol (oc.getD "fc2_flag") cflag.astypeInt).setCol "hour_of_the_day_fc2"
         ⟨Dtype.float64, hourColVals df.index cflag.astypeInt.vals⟩,
       .ok (histCounts10 ((hourColVals df.index cflag.astypeInt.vals).filterMap id))) := by
    simp [FaultCodeTwoReport.create_hist_plot, index_setCol,
      col_setCol_self df (oc.getD "fc2_flag") cflag.astypeInt]
  have hdf2mat : ((df.setCol (oc.getD "fc2_flag") cflag.astypeInt).setCol "hour_of_the_day_fc2"
      ⟨Dtype.float64, hourColVals df.index cflag.astypeInt.vals⟩).col cfg.mat_col =
      some cmat := by
    rw [col_setCol_ne _ _ _ _ ne4, col_setCol_ne _ _ _ _ ne1]; exact hmat
  have hdf2rat : ((df.setCol (oc.getD "fc2_flag") cflag.astypeInt).setCol "hour_of_the_day_fc2"
      ⟨Dtype.float64, hourColVals df.index cflag.astypeInt.vals⟩).col cfg.rat_col =
      some crat := by
    rw [col_setCol_ne _ _ _ _ ne5, col_setCol_ne _ _ _ _ ne2]; exact hrat
  have hdf2oat : ((df.setCol (oc.getD "fc2_flag") cflag.astypeInt).setCol "hour_of_the_day_fc2"
      ⟨Dtype.float64, hourColVals df.index cflag.astypeInt.vals⟩).col cfg.oat_col =
      some coat := by
    rw [col_setCol_ne _ _ _ _ ne6, col_setCol_ne _ _ _ _ ne3]; exact hoat
  simp only [FaultCodeTwoReport.create_report, hfan, hsum, hhist, hdf2mat, hdf2rat, hdf2oat]
  simp [fc2DocBody]

theorem fc1DocBody_sections (cfg : FaultCodeOneReport) (s : FC1Summary) (spCol : Column) :
    (fc1DocBody cfg s spCol).filterMap headingText =
      ["Fault Condition One Report", "Dataset Plot", "Dataset Statistics",
       "Time-of-day Histogram Plots", "VFD Speed Statistics", "Duct Pressure Statistics",
       "Duct Pressure Setpoints Statistics", "Suggestions based on data analysis"] ∧
    (fc1DocBody cfg s spCol).filterMap statBulletOf =
      [.totalDays s.total_days, .totalHours s.total_hours, .flaggedHours s.hours_fc1_mode,
       .percentTrue s.percent_true, .percentFalse s.percent_false] ∧
    (fc1DocBody cfg s spCol).filterMap imageName =
      ["fc1_definition.png", "fan_plot", "hist_plot"] ∧
    (fc1DocBody cfg s spCol).getLast? = some .footer ∧
    (fc1DocBody cfg s spCol).filterMap condBullet1 =
      (match s.flag_true_duct_static with
       | some v => [v]
       | none => []) := by
  unfold fc1DocBody
  cases hft : s.flag_true_duct_static <;>
    simp [headingText, statBulletOf, imageName, condBullet1,
      List.filterMap_append, List.filterMap_cons]

theorem fc2DocBody_sections (cfg : FaultCodeTwoReport) (s : FC2Summary) :
    (fc2DocBody cfg s).filterMap headingText =
      ["Fault Condition Two Report", "Dataset Plot", "Dataset Statistics",
       "Time-of-day Histogram Plots", "Mix Temp Statistics", "Return Temp Statistics",
       "Outside Temp Statistics", "Suggestions based on data analysis"] ∧
    (fc2DocBody cfg s).filterMap statBulletOf =
      [.totalDays s.total_days, .totalHours s.total_hours, .flaggedHours s.hours_fc2_mode,
       .percentTrue s.percent_true, .percentFalse s.percent_false] ∧
    (fc2DocBody cfg s).filterMap imageName =
      ["fc2_definition.png", "fan_plot", "hist_plot"] ∧
    (fc2DocBody cfg s).getLast? = some .footer ∧
    (fc2DocBody cfg s).filterMap condBullet2 =
      (match s.flag_true_mat with
       | some v => [(v, s.flag_true_oat, s.flag_true_rat)]
       | none => []) := by
  unfold fc2DocBody
  cases hft : s.flag_true_mat <;>
    simp [headingText, statBulletOf, imageName, condBullet2,
      List.filterMap_append, List.filterMap_cons]

/-- C5 (confirmed, both report classes): the conditional commentary bullet is
emitted exactly when the flag-conditioned mean of the summary is not NaN;
when it is NaN the bullet is silently omitted, the run completes without
error, and the full document is still produced. -/
theorem claim5_conditional_paragraph :
    (∀ (cfg : FaultCodeOneReport) (df : DataFrame) (oc dsc : Option String)
        (cflag cst cvfd csp : Column),
      df.col (oc.getD "fc1_flag") = some cflag →
      df.col cfg.duct_static_col = some cst →
      df.col cfg.supply_vfd_speed_col = some cvfd →
      df.col cfg.duct_static_setpoint_col = some csp →
      cfg.duct_static_col ≠ oc.getD "fc1_flag" →
      cfg.supply_vfd_speed_col ≠ oc.getD "fc1_flag" →
      cfg.duct_static_setpoint_col ≠ oc.getD "fc1_flag" →
      cfg.supply_vfd_speed_col ≠ "hour_of_the_day_fc1" →
      cfg.duct_static_col ≠ "hour_of_the_day_fc1" →
      cfg.duct_static_setpoint_col ≠ "hour_of_the_day_fc1" →
      ∀ s : FC1Summary,
        cfg.summarize_fault_times (df.setCol (oc.getD "fc1_flag") cflag.astypeInt) oc = .ok s →
        (cfg.create_report df oc dsc).err = none ∧
        (s.flag_true_duct_static = none →
          (cfg.create_report df oc dsc).doc.filterMap condBullet1 = []) ∧
        (∀ v : ℚ, s.flag_true_duct_static = some v →
          (cfg.create_report df oc dsc).doc.filterMap condBullet1 = [v])) ∧
    (∀ (cfg : FaultCodeTwoReport) (df : DataFrame) (oc mc : Option String)
        (cflag cmat crat coat : Column),
      df.col (oc.getD "fc2_flag") = some cflag →
      df.col cfg.mat_col = some cmat →
      df.col cfg.rat_col = some crat →
      df.col cfg.oat_col = some coat →
      cfg.mat_col ≠ oc.getD "fc2_flag" →
      cfg.rat_col ≠ oc.getD "fc2_flag" →
      cfg.oat_col ≠ oc.getD "fc2_flag" →
      cfg.mat_col ≠ "hour_of_the_day_fc2" →
      cfg.rat_col ≠ "hour_of_the_day_fc2" →
      cfg.oat_col ≠ "hour_of_the_day_fc2" →
      ∀ s : FC2Summary,
        cfg.summarize_fault_times (df.setCol (oc.getD "fc2_flag") cflag.astypeInt) oc = .ok s →
        (cfg.create_report df oc mc).err = none ∧
        (s.flag_true_mat = none →
          (cfg.create_report df oc mc).doc.filterMap condBullet2 = []) ∧
        (∀ v : ℚ, s.flag_true_mat = some v →
          (cfg.create_report df oc mc).doc.filterMap condBullet2 =
            [(v, s.flag_true_oat, s.flag_true_rat)])) := by
  constructor
  · intro cfg df oc dsc cflag cst cvfd csp hflag hst hvfd hsp ne1 ne2 ne3 ne4 ne5 ne6 s hsum
    have hdf1st : (df.setCol (oc.getD "fc1_flag") cflag.astypeInt).col cfg.duct_static_col =
        some cst := by
      rw [col_setCol_ne _ _ _ _ ne1]; exact hst
    have hsumc : cfg.summarize_fault_times (df.setCol (oc.getD "fc1_flag") cflag.astypeInt) oc =
        .ok (fc1SummaryOf df.index cflag.astypeInt.vals cst.vals) :=
      fc1_summarize_ok cfg _ oc cflag.astypeInt cst
        (col_setCol_self df (oc.getD "fc1_flag") cflag.astypeInt) hdf1st
    rw [hsumc] at hsum
    injection hsum with hsum
    rw [fc1_create_report_ok cfg df oc dsc cflag cst cvfd csp
      hflag hst hvfd hsp ne1 ne2 ne3 ne4 ne5 ne6]
    subst hsum
    refine ⟨rfl, ?_, ?_⟩
    · intro hnone
      rw [(fc1DocBody_sections cfg _ csp).2.2.2.2, hnone]
    · intro v hv
      rw [(fc1DocBody_sections cfg _ csp).2.2.2.2, hv]
  · intro cfg df oc mc cflag cmat crat coat hflag hmat hrat hoat ne1 ne2 ne3 ne4 ne5 ne6 s hsum
    have hdf1mat : (df.setCol (oc.getD "fc2_flag") cflag.astypeInt).col cfg.mat_col =
        some cmat := by
      rw [col_setCol_ne _ _ _ _ ne1]; exact hmat
    have hdf1rat : (df.setCol (oc.getD "fc2_flag") cflag.astypeInt).col cfg.rat_col =
        some crat := by
      rw [col_setCol_ne _ _ _ _ ne2]; exact hrat
    have hdf1oat : (df.setCol (oc.getD "fc2_flag") cflag.astypeInt).col cfg.oat_col =
        some coat := by
      rw [col_setCol_ne _ _ _ _ ne3]; exact hoat
    have hsumc : cfg.summarize_fault_times (df.setCol (oc.getD "fc2_flag") cflag.astypeInt) oc =
        .ok (fc2SummaryOf df.index cflag.astypeInt.vals cmat.vals coat.vals crat.vals) :=
      fc2_summarize_ok cfg _ oc cflag.astypeInt cmat coat crat
        (col_setCol_self df (oc.getD "fc2_flag") cflag.astypeInt) hdf1mat hdf1oat hdf1rat
    rw [hsumc] at hsum
    injection hsum with hsum
    rw [fc2_create_report_ok cfg df oc mc cflag cmat crat coat
      hflag hmat hrat hoat ne1 ne2 ne3 ne4 ne5 ne6]
    subst hsum
    refine ⟨rfl, ?_, ?_⟩
    · intro hnone
      rw [(fc2DocBody_sections cfg _).2.2.2.2, hnone]
    · intro v hv
      rw [(fc2DocBody_sections cfg _).2.2.2.2, hv]

/-- C7 (amended, both report classes): create_report appends its sections in
the fixed order of the specification (title, description, reference image,
time-series plot, statistics bullets, histogram, optional conditional
paragraph, per-sensor descriptive statistics, suggestions, timestamped
footer), and the statistics block holds exactly FIVE fixed bullets in order:
total days, total hours, flagged hours, percent flagged, percent not
flagged, always present. -/
theorem claim7_section_order :
    (∀ (cfg : FaultCodeOneReport) (df : DataFrame) (oc dsc : Option String)
        (cflag cst cvfd csp : Column),
      df.col (oc.getD "fc1_flag") = some cflag →
      df.col cfg.duct_static_col = some cst →
      df.col cfg.supply_vfd_speed_col = some cvfd →
      df.col cfg.duct_static_setpoint_col = some csp →
      cfg.duct_static_col ≠ oc.getD "fc1_flag" →
      cfg.supply_vfd_speed_col ≠ oc.getD "fc1_flag" →
      cfg.duct_static_setpoint_col ≠ oc.getD "fc1_flag" →
      cfg.supply_vfd_speed_col ≠ "hour_of_the_day_fc1" →
      cfg.duct_static_col ≠ "hour_of_the_day_fc1" →
      cfg.duct_static_setpoint_col ≠ "hour_of_the_day_fc1" →
      (cfg.create_report df oc dsc).doc.filterMap headingText =
        ["Fault Condition One Report", "Dataset Plot", "Dataset Statistics",
         "Time-of-day Histogram Plots", "VFD Speed Statistics", "Duct Pressure Statistics",
         "Duct Pressure Setpoints Statistics", "Suggestions based on data analysis"] ∧
      (∃ a b c : ℚ, ∃ d e : Option ℚ,
        (cfg.create_report df oc dsc).doc.filterMap statBulletOf =
          [.totalDays a, .totalHours b, .flaggedHours c, .percentTrue d, .percentFalse e]) ∧
      (cfg.create_report df oc dsc).doc.filterMap imageName =
        ["fc1_definition.png", "fan_plot", "hist_plot"] ∧
      (cfg.create_report df oc dsc).doc.getLast? = some .footer) ∧
    (∀ (cfg : FaultCodeTwoReport) (df : DataFrame) (oc mc : Option String)
        (cflag cmat crat coat : Column),
      df.col (oc.getD "fc2_flag") = some cflag →
      df.col cfg.mat_col = some cmat →
      df.col cfg.rat_col = some crat →
      df.col cfg.oat_col = some coat →
      cfg.mat_col ≠ oc.getD "fc2_flag" →
      cfg.rat_col ≠ oc.getD "fc2_flag" →
      cfg.oat_col ≠ oc.getD "fc2_flag" →
      cfg.mat_col ≠ "hour_of_the_day_fc2" →
      cfg.rat_col ≠ "hour_of_the_day_fc2" →
      cfg.oat_col ≠ "hour_of_the_day_fc2" →
      (cfg.create_report df oc mc).doc.filterMap headingText =
        ["Fault Condition Two Report", "Dataset Plot", "Dataset Statistics",
         "Time-of-day Histogram Plots", "Mix Temp Statistics", "Return Temp Statistics",
         "Outside Temp Statistics", "Suggestions based on data analysis"] ∧
      (∃ a b c : ℚ, ∃ d e : Option ℚ,
        (cfg.create_report df oc mc).doc.filterMap statBulletOf =
          [.totalDays a, .totalHours b, .flaggedHours c, .percentTrue d, .percentFalse e]) ∧
      (cfg.create_report df oc mc).doc.filterMap imageName =
        ["fc2_definition.png", "fan_plot", "hist_plot"] ∧
      (cfg.create_report df oc mc).doc.getLast? = some .footer) := by
  constructor
  · intro cfg df oc dsc cflag cst cvfd csp hflag hst hvfd hsp ne1 ne2 ne3 ne4 ne5 ne6
    rw [fc1_create_report_ok cfg df oc dsc cflag cst cvfd csp
      hflag hst hvfd hsp ne1 ne2 ne3 ne4 ne5 ne6]
    have h := fc1DocBody_sections cfg
      (fc1SummaryOf df.index cflag.astypeInt.vals cst.vals) csp
    exact ⟨h.1, ⟨_, _, _, _, _, h.2.1⟩, h.2.2.1, h.2.2.2.1⟩
  · intro cfg df oc mc cflag cmat crat coat hflag hmat hrat hoat ne1 ne2 ne3 ne4 ne5 ne6
    rw [fc2_create_report_ok cfg df oc mc cflag cmat crat coat
      hflag hmat hrat hoat ne1 ne2 ne3 ne4 ne5 ne6]
    have h := fc2DocBody_sections cfg
      (fc2SummaryOf df.index cflag.astypeInt.vals cmat.vals coat.vals crat.vals)
    exact ⟨h.1, ⟨_, _, _, _, _, h.2.1⟩, h.2.2.1, h.2.2.2.1⟩

/-- C7 (counterexample): a concrete successful report run whose statistics
block holds exactly five fixed bullets, refuting the claimed count of six. -/
theorem claim7_counterexample :
    ((fc1CfgW.create_report dfTwoW none none).doc.filterMap statBulletOf).length = 5 ∧
    ¬ ((fc1CfgW.create_report dfTwoW none none).doc.filterMap statBulletOf).length = 6 := by
  have h := fc1_create_report_ok fc1CfgW dfTwoW none none
    ⟨Dtype.int64, [some 0, some 1]⟩ ⟨Dtype.float64, [some 1, some 2]⟩
    ⟨Dtype.float64, [some 50, some 99]⟩ ⟨Dtype.float64, [some 1, some 1]⟩
    rfl rfl rfl rfl (by decide) (by decide) (by decide) (by decide) (by decide) (by decide)
  rw [h, (fc1DocBody_sections _ _ _).2.1]
  exact ⟨rfl, by simp⟩

theorem astypeInt_vals_id (c : Column) (hb : ∀ x ∈ c.vals, x = some 0 ∨ x = some 1) :
    c.astypeInt.vals = c.vals := by
  unfold Column.astypeInt
  have h : ∀ x ∈ c.vals,
      Option.map (fun q : ℚ => ((if 0 ≤ q then ⌊q⌋ else ⌈q⌉ : ℤ) : ℚ)) x = id x := by
    intro x hx
    rcases hb x hx with rfl | rfl <;> norm_num
  rw [List.map_congr_left h, List.map_id]

/-- C9 (amended): a report run mutates the caller dataset in exactly two
places: the flag column is overwritten in place by its integer cast (same
0/1 values, different dtype) and the derived transient hour-of-day column is
added; every other column keeps its original binding and the index is
untouched. -/
theorem claim9_mutations (cfg : FaultCodeOneReport) (df : DataFrame)
    (oc dsc : Option String) (cflag cst cvfd csp : Column)
    (hflag : df.col (oc.getD "fc1_flag") = some cflag)
    (hst : df.col cfg.duct_static_col = some cst)
    (hvfd : df.col cfg.supply_vfd_speed_col = some cvfd)
    (hsp : df.col cfg.duct_static_setpoint_col = some csp)
    (ne1 : cfg.duct_static_col ≠ oc.getD "fc1_flag")
    (ne2 : cfg.supply_vfd_speed_col ≠ oc.getD "fc1_flag")
    (ne3 : cfg.duct_static_setpoint_col ≠ oc.getD "fc1_flag")
    (ne4 : cfg.supply_vfd_speed_col ≠ "hour_of_the_day_fc1")
    (ne5 : cfg.duct_static_col ≠ "hour_of_the_day_fc1")
    (ne6 : cfg.duct_static_setpoint_col ≠ "hour_of_the_day_fc1") :
    (cfg.create_report df oc dsc).df =
      (df.setCol (oc.getD "fc1_flag") cflag.astypeInt).setCol "hour_of_the_day_fc1"
        ⟨Dtype.float64, hourColVals df.index cflag.astypeInt.vals⟩ ∧
    (∀ n : String, n ≠ oc.getD "fc1_flag" → n ≠ "hour_of_the_day_fc1" →
      (cfg.create_report df oc dsc).df.col n = df.col n) ∧
    (cfg.create_report df oc dsc).df.index = df.index ∧
    ((∀ x ∈ cflag.vals, x = some 0 ∨ x = some 1) → cflag.astypeInt.vals = cflag.vals) := by
  rw [fc1_create_report_ok cfg df oc dsc cflag cst cvfd csp
    hflag hst hvfd hsp ne1 ne2 ne3 ne4 ne5 ne6]
  refine ⟨rfl, ?_, rfl, astypeInt_vals_id cflag⟩
  intro n h1 h2
  rw [col_setCol_ne _ _ _ _ h2, col_setCol_ne _ _ _ _ h1]

/-- C9 (counterexample): a report run over a dataset whose flag column has
boolean dtype leaves that column with int64 dtype: the flag column is
mutated in place by the astype(int) cast, so the dataset is changed beyond
the derived hour-of-day column, against the claim. -/
theorem claim9_counterexample :
    (∃ c : Column, (fc1CfgW.create_report dfBoolW none none).df.col "fc1_flag" = some c ∧
      c.dtype = Dtype.int64) ∧
    (dfBoolW.col "fc1_flag").map Column.dtype = some Dtype.bool ∧
    (fc1CfgW.create_report dfBoolW none none).df.col "fc1_flag" ≠ dfBoolW.col "fc1_flag" := by
  have h := fc1_create_report_ok fc1CfgW dfBoolW none none
    ⟨Dtype.bool, [some 0, some 1]⟩ ⟨Dtype.float64, [some 1, some 2]⟩
    ⟨Dtype.float64, [some 50, some 99]⟩ ⟨Dtype.float64, [some 1, some 1]⟩
    rfl rfl rfl rfl (by decide) (by decide) (by decide) (by decide) (by decide) (by decide)
  rw [h]
  have hcol : (((dfBoolW.setCol ((none : Option String).getD "fc1_flag")
      (Column.astypeInt ⟨Dtype.bool, [some 0, some 1]⟩)).setCol "hour_of_the_day_fc1"
      ⟨Dtype.float64, hourColVals dfBoolW.index
        (Column.astypeInt ⟨Dtype.bool, [some 0, some 1]⟩).vals⟩).col "fc1_flag") =
      some (Column.astypeInt ⟨Dtype.bool, [some 0, some 1]⟩) := by
    rw [col_setCol_ne _ _ _ _ (by decide : ("fc1_flag" : String) ≠ "hour_of_the_day_fc1")]
    exact col_setCol_self _ _ _
  refine ⟨⟨Column.astypeInt ⟨Dtype.bool, [some 0, some 1]⟩, hcol, rfl⟩, rfl, ?_⟩
  rw [hcol]
  have hd : dfBoolW.col "fc1_flag" = some ⟨Dtype.bool, [some 0, some 1]⟩ := rfl
  rw [hd]
  intro hcontra
  injection hcontra with hcontra
  have := congrArg Column.dtype hcontra
  simp [Column.astypeInt] at this

/-- C9 witness: the amended mutation statement instantiated on the concrete
boolean-flag dataset; the flag values 0 and 1 survive the cast unchanged. -/
theorem claim9_mutations_witness :
    (fc1CfgW.create_report dfBoolW none none).df.col "duct_static" = dfBoolW.col "duct_static" ∧
    (fc1CfgW.create_report dfBoolW none none).df.index = dfBoolW.index ∧
    (Column.astypeInt ⟨Dtype.bool, [some 0, some 1]⟩).vals = [some 0, some 1] := by
  have h := claim9_mutations fc1CfgW dfBoolW none none
    ⟨Dtype.bool, [some 0, some 1]⟩ ⟨Dtype.float64, [some 1, some 2]⟩
    ⟨Dtype.float64, [some 50, some 99]⟩ ⟨Dtype.float64, [some 1, some 1]⟩
    rfl rfl rfl rfl (by decide) (by decide) (by decide) (by decide) (by decide) (by decide)
  refine ⟨h.2.1 "duct_static" (by decide) (by decide), h.2.2.1, ?_⟩
  have := h.2.2.2 (by
    intro x hx
    simp at hx
    rcases hx with rfl | rfl
    · exact Or.inl rfl
    · exact Or.inr rfl)
  simpa using this

/-- C8 (amended): when any required column (flag, primary sensors, setpoint)
is absent, create_report raises at the first access of that column and the
caller receives no document; however the abort does NOT happen before any
section is produced: the title, description, reference image and the Dataset
Plot heading are already composed in memory, and for a missing setpoint
column nearly the whole document is. -/
theorem claim8_missing_column_abort (cfg : FaultCodeOneReport) (df : DataFrame)
    (oc dsc : Option String)
    (ne1 : cfg.duct_static_col ≠ oc.getD "fc1_flag")
    (ne2 : cfg.supply_vfd_speed_col ≠ oc.getD "fc1_flag")
    (ne3 : cfg.duct_static_setpoint_col ≠ oc.getD "fc1_flag")
    (ne4 : cfg.supply_vfd_speed_col ≠ "hour_of_the_day_fc1")
    (ne5 : cfg.duct_static_col ≠ "hour_of_the_day_fc1")
    (ne6 : cfg.duct_static_setpoint_col ≠ "hour_of_the_day_fc1")
    (hmiss : df.col (oc.getD "fc1_flag") = none ∨ df.col cfg.duct_static_col = none ∨
      df.col cfg.supply_vfd_speed_col = none ∨ df.col cfg.duct_static_setpoint_col = none) :
    (cfg.create_report df oc dsc).err ≠ none ∧
    (cfg.create_report df oc dsc).returned = none ∧
    (cfg.create_report df oc dsc).doc ≠ [] := by
  have hmain : (cfg.create_report df oc dsc).err ≠ none ∧
      (cfg.create_report df oc dsc).doc ≠ [] := by
    cases hA : df.col (oc.getD "fc1_flag") with
    | none =>
      constructor
      · simp [FaultCodeOneReport.create_report, FaultCodeOneReport.create_fan_plot, hA]
      · simp [FaultCodeOneReport.create_report, FaultCodeOneReport.create_fan_plot, hA]
    | some cflag =>
      cases hB : df.col cfg.duct_static_col with
      | none =>
        have hd1 : (df.setCol (oc.getD "fc1_flag") cflag.astypeInt).col cfg.duct_static_col =
            none := by
          rw [col_setCol_ne _ _ _ _ ne1]; exact hB
        constructor
        · simp [FaultCodeOneReport.create_report, FaultCodeOneReport.create_fan_plot, hA, hd1]
        · simp [FaultCodeOneReport.create_report, FaultCodeOneReport.create_fan_plot, hA, hd1]
      | some cst =>
        have hd1st : (df.setCol (oc.getD "fc1_flag") cflag.astypeInt).col cfg.duct_static_col =
            some cst := by
          rw [col_setCol_ne _ _ _ _ ne1]; exact hB
        cases hC : df.col cfg.supply_vfd_speed_col with
        | none =>
          have hd1v : (df.setCol (oc.getD "fc1_flag") cflag.astypeInt).col
              cfg.supply_vfd_speed_col = none := by
            rw [col_setCol_ne _ _ _ _ ne2]; exact hC
          constructor
          · simp [FaultCodeOneReport.create_report, FaultCodeOneReport.create_fan_plot,
              hA, hd1st, hd1v]
          · simp [FaultCodeOneReport.create_report, FaultCodeOneReport.create_fan_plot,
              hA, hd1st, hd1v]
        | some cvfd =>
          have hD : df.col cfg.duct_static_setpoint_col = none := by
            rcases hmiss with h | h | h | h
            · rw [hA] at h; cases h
            · rw [hB] at h; cases h
            · rw [hC] at h; cases h
            · exact h
          have hd1v : (df.setCol (oc.getD "fc1_flag") cflag.astypeInt).col
              cfg.supply_vfd_speed_col = some cvfd := by
            rw [col_setCol_ne _ _ _ _ ne2]; exact hC
          have hfan : cfg.create_fan_plot df oc =
              (df.setCol (oc.getD "fc1_flag") cflag.astypeInt, none) := by
            simp [FaultCodeOneReport.create_fan_plot, hA, hd1st, hd1v]
          have hsum : cfg.summarize_fault_times
              (df.setCol (oc.getD "fc1_flag") cflag.astypeInt) oc =
              .ok (fc1SummaryOf df.index cflag.astypeInt.vals cst.vals) :=
            fc1_summarize_ok cfg _ oc cflag.astypeInt cst
              (col_setCol_self df (oc.getD "fc1_flag") cflag.astypeInt) hd1st
          have hhist : FaultCodeOneReport.create_hist_plot
              (df.setCol (oc.getD "fc1_flag") cflag.astypeInt) oc dsc =
              ((df.setCol (oc.getD "fc1_flag") cflag.astypeInt).setCol "hour_of_the_day_fc1"
                 ⟨Dtype.float64, hourColVals df.index cflag.astypeInt.vals⟩,
               .ok (histCounts10 ((hourColVals df.index cflag.astypeInt.vals).filterMap id))) := by
            simp [FaultCodeOneReport.create_hist_plot, index_setCol,
              col_setCol_self df (oc.getD "fc1_flag") cflag.astypeInt]
          have hdf2vfd : ((df.setCol (oc.getD "fc1_flag") cflag.astypeInt).setCol
              "hour_of_the_day_fc1"
              ⟨Dtype.float64, hourColVals df.index cflag.astypeInt.vals⟩).col
              cfg.supply_vfd_speed_col = some cvfd := by
            rw [col_setCol_ne _ _ _ _ ne4, col_setCol_ne _ _ _ _ ne2]; exact hC
          have hdf2st : ((df.setCol (oc.getD "fc1_flag") cflag.astypeInt).setCol
              "hour_of_the_day_fc1"
              ⟨Dtype.float64, hourColVals df.index cflag.astypeInt.vals⟩).col
              cfg.duct_static_col = some cst := by
            rw [col_setCol_ne _ _ _ _ ne5, col_setCol_ne _ _ _ _ ne1]; exact hB
          have hdf2sp : ((df.setCol (oc.getD "fc1_flag") cflag.astypeInt).setCol
              "hour_of_the_day_fc1"
              ⟨Dtype.float64, hourColVals df.index cflag.astypeInt.vals⟩).col
              cfg.duct_static_setpoint_col = none := by
            rw [col_setCol_ne _ _ _ _ ne6, col_setCol_ne _ _ _ _ ne3]; exact hD
          constructor
          · simp [FaultCodeOneReport.create_report, hfan, hsum, hhist,
              hdf2vfd, hdf2st, hdf2sp]
          · simp [FaultCodeOneReport.create_report, hfan, hsum, hhist,
              hdf2vfd, hdf2st, hdf2sp]
  refine ⟨hmain.1, ?_, hmain.2⟩
  unfold RunResult.returned
  rw [if_neg hmain.1]

/-- C8 (counterexample): with the flag column absent the run aborts, yet the
document under construction already holds the title, the description, the
reference image and the Dataset Plot heading, so sections ARE produced
before the abort, against the claim; only the return of a partial document
to the caller is prevented. -/
theorem claim8_counterexample :
    (fc1CfgW.create_report dfNoFlagW none none).err = some "fc1_flag" ∧
    (fc1CfgW.create_report dfNoFlagW none none).doc =
      [.heading 0 "Fault Condition One Report", .para fc1Description,
       .image "fc1_definition.png", .heading 2 "Dataset Plot"] ∧
    ¬ (fc1CfgW.create_report dfNoFlagW none none).doc = [] ∧
    (fc1CfgW.create_report dfNoFlagW none none).returned = none := by
  have hA : dfNoFlagW.col "fc1_flag" = none := rfl
  have hrun : fc1CfgW.create_report dfNoFlagW none none =
      ⟨[.heading 0 "Fault Condition One Report", .para fc1Description,
        .image "fc1_definition.png", .heading 2 "Dataset Plot"],
       some "fc1_flag", dfNoFlagW⟩ := by
    simp [FaultCodeOneReport.create_report, FaultCodeOneReport.create_fan_plot, hA]
  rw [hrun]
  exact ⟨rfl, rfl, by simp, by simp [RunResult.returned]⟩

/-- C8 witness: the amended statement instantiated on the dataset lacking
the flag column. -/
theorem claim8_missing_column_abort_witness :
    (fc1CfgW.create_report dfNoFlagW none none).err ≠ none ∧
    (fc1CfgW.create_report dfNoFlagW none none).returned = none ∧
    (fc1CfgW.create_report dfNoFlagW none none).doc ≠ [] :=
  claim8_missing_column_abort fc1CfgW dfNoFlagW none none
    (by decide) (by decide) (by decide) (by decide) (by decide) (by decide)
    (Or.inl rfl)

/-- C7 witness: the fixed section order instantiated on concrete runs of
both report classes. -/
theorem claim7_section_order_witness :
    (fc1CfgW.create_report dfTwoW none none).doc.getLast? = some .footer ∧
    (fc1CfgW.create_report dfTwoW none none).doc.filterMap imageName =
      ["fc1_definition.png", "fan_plot", "hist_plot"] ∧
    (fc2CfgW.create_report df2W none none).doc.getLast? = some .footer :=
  ⟨(claim7_section_order.1 fc1CfgW dfTwoW none none _ _ _ _ rfl rfl rfl rfl
      (by decide) (by decide) (by decide) (by decide) (by decide) (by decide)).2.2.2,
   (claim7_section_order.1 fc1CfgW dfTwoW none none _ _ _ _ rfl rfl rfl rfl
      (by decide) (by decide) (by decide) (by decide) (by decide) (by decide)).2.2.1,
   (claim7_section_order.2 fc2CfgW df2W none none _ _ _ _ rfl rfl rfl rfl
      (by decide) (by decide) (by decide) (by decide) (by decide) (by decide)).2.2.2⟩

/-- C5 witness: both create_report runs complete without error on concrete
datasets, exercising the conditional-paragraph statement. -/
theorem claim5_conditional_paragraph_witness :
    (fc1CfgW.create_report dfTwoW none none).err = none ∧
    (fc2CfgW.create_report df2W none none).err = none := by
  constructor
  · refine ((claim5_conditional_paragraph.1 fc1CfgW dfTwoW none none
      ⟨Dtype.int64, [some 0, some 1]⟩ ⟨Dtype.float64, [some 1, some 2]⟩
      ⟨Dtype.float64, [some 50, some 99]⟩ ⟨Dtype.float64, [some 1, some 1]⟩
      rfl rfl rfl rfl (by decide) (by decide) (by decide) (by decide) (by decide) (by decide)
      (fc1SummaryOf dfTwoW.index
        (Column.astypeInt ⟨Dtype.int64, [some 0, some 1]⟩).vals
        (⟨Dtype.float64, [some 1, some 2]⟩ : Column).vals) ?_)).1
    exact fc1_summarize_ok fc1CfgW _ none (Column.astypeInt ⟨Dtype.int64, [some 0, some 1]⟩)
      ⟨Dtype.float64, [some 1, some 2]⟩ (col_setCol_self _ _ _)
      (by rw [col_setCol_ne _ _ _ _
        (by decide : fc1CfgW.duct_static_col ≠ (none : Option String).getD "fc1_flag")]; rfl)
  · refine ((claim5_conditional_paragraph.2 fc2CfgW df2W none none
      ⟨Dtype.int64, [some 1, some 0]⟩ ⟨Dtype.float64, [some 60, some 61]⟩
      ⟨Dtype.float64, [some 70, some 71]⟩ ⟨Dtype.float64, [some 50, some 51]⟩
      rfl rfl rfl rfl (by decide) (by decide) (by decide) (by decide) (by decide) (by decide)
      (fc2SummaryOf df2W.index
        (Column.astypeInt ⟨Dtype.int64, [some 1, some 0]⟩).vals
        (⟨Dtype.float64, [some 60, some 61]⟩ : Column).vals
        (⟨Dtype.float64, [some 50, some 51]⟩ : Column).vals
        (⟨Dtype.float64, [some 70, some 71]⟩ : Column).vals) ?_)).1
    exact fc2_summarize_ok fc2CfgW _ none (Column.astypeInt ⟨Dtype.int64, [some 1, some 0]⟩)
      ⟨Dtype.float64, [some 60, some 61]⟩ ⟨Dtype.float64, [some 50, some 51]⟩
      ⟨Dtype.float64, [some 70, some 71]⟩ (col_setCol_self _ _ _)
      (by rw [col_setCol_ne _ _ _ _
        (by decide : fc2CfgW.mat_col ≠ (none : Option String).getD "fc2_flag")]; rfl)
      (by rw [col_setCol_ne _ _ _ _
        (by decide : fc2CfgW.oat_col ≠ (none : Option String).getD "fc2_flag")]; rfl)
      (by rw [col_setCol_ne _ _ _ _
        (by decide : fc2CfgW.rat_col ≠ (none : Option String).getD "fc2_flag")]; rfl)
